import Mathlib

/-!
Shallow embedding of the ATmega328p emulator core (`src/cpu.rs`, `src/memory.rs`,
`src/utils.rs`, `src/disassembler.rs`, `src/system.rs`) and verification of the
frozen claims about it.

Conventions of the embedding:
* 8-bit and 16-bit machine words are `Nat`s; truncating casts are `% 256` /
  `% 65536`; bitwise operators mirror the Rust operators.
* Rust's default (overflow-checked) `+`, `-`, `*` on `u8`/`u16` are modelled by
  `rustAddU8`, `rustSubU8`, `rustAddU16`, `rustSubU16`, `rustMulU16`: they
  return `Except String _`, the `.error` case standing for the arithmetic
  overflow panic.  `wrapping_sub`, `wrapping_neg`, `wrapping_mul` are modelled
  by total wrapping functions.
* A Rust `panic!`/`todo!` is an `Except.error` carrying the panic message.
* The `println!` in the reserved-opcode handler is modelled by appending the
  printed line to a `log` field of the machine state.
-/

namespace Atmega

/-! ## Bit/word utilities (`src/utils.rs`) -/

/-- Result type of `bits_u8`: the Rust code returns an 8-tuple whose component
`k` is `value & (1 << k)` (the *masked* bit, not shifted down to 0/1). -/
structure EightBits where
  b0 : Nat
  b1 : Nat
  b2 : Nat
  b3 : Nat
  b4 : Nat
  b5 : Nat
  b6 : Nat
  b7 : Nat
deriving Repr, DecidableEq

/-- Result type of `bits_u16`: a 16-tuple of `u8`s; the Rust code computes
`(value & (1 << k)) as u8`, so components 8..15 are truncated by the cast. -/
structure SixteenBits where
  b0 : Nat
  b1 : Nat
  b2 : Nat
  b3 : Nat
  b4 : Nat
  b5 : Nat
  b6 : Nat
  b7 : Nat
  b8 : Nat
  b9 : Nat
  b10 : Nat
  b11 : Nat
  b12 : Nat
  b13 : Nat
  b14 : Nat
  b15 : Nat
deriving Repr, DecidableEq

/-- `utils::high_byte`. -/
def high_byte (value : Nat) : Nat := (value >>> 8) &&& 0xFF

/-- `utils::low_byte`. -/
def low_byte (value : Nat) : Nat := value &&& 0xFF

/-- `utils::to_u16`. -/
def to_u16 (hb lb : Nat) : Nat := ((hb % 256) <<< 8) ||| (lb % 256)

/-- `utils::bits_u8`: component `k` is `value & (1 << k)`. -/
def bits_u8 (value : Nat) : EightBits :=
  ⟨value &&& 1, value &&& 2, value &&& 4, value &&& 8,
   value &&& 16, value &&& 32, value &&& 64, value &&& 128⟩

/-- `utils::bits_u16`: component `k` is `(value & (1 << k)) as u8`; the `as u8`
cast truncates, so components for bits 8..15 are always `0`. -/
def bits_u16 (value : Nat) : SixteenBits :=
  ⟨(value &&& 1) % 256, (value &&& 2) % 256, (value &&& 4) % 256,
   (value &&& 8) % 256, (value &&& 16) % 256, (value &&& 32) % 256,
   (value &&& 64) % 256, (value &&& 128) % 256, (value &&& 256) % 256,
   (value &&& 512) % 256, (value &&& 1024) % 256, (value &&& 2048) % 256,
   (value &&& 4096) % 256, (value &&& 8192) % 256, (value &&& 16384) % 256,
   (value &&& 32768) % 256⟩

/-- Rust `!x` on `u8` (bitwise complement). -/
def not8 (x : Nat) : Nat := x ^^^ 255

/-- Rust's default (overflow-checked) `u8` addition. -/
def rustAddU8 (a b : Nat) : Except String Nat :=
  if a + b < 256 then .ok (a + b) else .error "attempt to add with overflow"

/-- Rust's default (overflow-checked) `u8` subtraction. -/
def rustSubU8 (a b : Nat) : Except String Nat :=
  if b ≤ a then .ok (a - b) else .error "attempt to subtract with overflow"

/-- Rust's default (overflow-checked) `u16` addition. -/
def rustAddU16 (a b : Nat) : Except String Nat :=
  if a + b < 65536 then .ok (a + b) else .error "attempt to add with overflow"

/-- Rust's default (overflow-checked) `u16` subtraction. -/
def rustSubU16 (a b : Nat) : Except String Nat :=
  if b ≤ a then .ok (a - b) else .error "attempt to subtract with overflow"

/-- Rust's default (overflow-checked) `u16` multiplication. -/
def rustMulU16 (a b : Nat) : Except String Nat :=
  if a * b < 65536 then .ok (a * b) else .error "attempt to multiply with overflow"

/-- Rust `u8::wrapping_neg`. -/
def wrappingNeg8 (x : Nat) : Nat := (256 - x % 256) % 256

/-- Rust `u16::wrapping_neg`. -/
def wrappingNeg16 (x : Nat) : Nat := (65536 - x % 65536) % 65536

/-- Rust `u8::wrapping_sub`. -/
def wrappingSub8 (a b : Nat) : Nat := (a % 256 + 256 - b % 256) % 256

/-- Rust `u16::wrapping_mul`. -/
def wrappingMul16 (a b : Nat) : Nat := (a * b) % 65536

/-- Rendering of Rust's `{:x?}` format for an unsigned integer: lowercase hex
digits, no leading zeros, no prefix. -/
def rustHex (n : Nat) : String := String.mk (Nat.toDigits 16 n)

/-! ## Status register (`Sreg`, `src/cpu.rs` lines 5-49) -/

structure Sreg where
  /-- Carry Flag (Bit 0) -/
  C : Bool
  /-- Zero Flag (Bit 1) -/
  Z : Bool
  /-- Negative Flag (Bit 2) -/
  N : Bool
  /-- Two's Complement Overflow Flag (Bit 3) -/
  V : Bool
  /-- Sign Bit (Bit 4) -/
  S : Bool
  /-- Half Carry Flag (Bit 5) -/
  H : Bool
  /-- Bit Copy Storage (Bit 6) -/
  T : Bool
  /-- Global Interrupt Enable (Bit 7) -/
  I : Bool
deriving Repr, DecidableEq

/-- `Sreg::default()`: all flags cleared. -/
def Sreg.default : Sreg := ⟨false, false, false, false, false, false, false, false⟩

/-- `Sreg::byte`. -/
def Sreg.byte (s : Sreg) : Nat :=
  s.C.toNat ||| (s.Z.toNat <<< 1) ||| (s.N.toNat <<< 2) ||| (s.V.toNat <<< 3)
    ||| (s.S.toNat <<< 4) ||| (s.H.toNat <<< 5) ||| (s.T.toNat <<< 6)
    ||| (s.I.toNat <<< 7)

/-- `Sreg::set_byte` (the `&mut self` receiver is the pre-state; every field is
overwritten from `byte`). -/
def Sreg.set_byte (_s : Sreg) (byte : Nat) : Sreg :=
  { C := (byte &&& 1) != 0
    Z := ((byte >>> 1) &&& 1) != 0
    N := ((byte >>> 2) &&& 1) != 0
    V := ((byte >>> 3) &&& 1) != 0
    S := ((byte >>> 4) &&& 1) != 0
    H := ((byte >>> 5) &&& 1) != 0
    T := ((byte >>> 6) &&& 1) != 0
    I := ((byte >>> 7) &&& 1) != 0 }

/-! ## Memory subsystem (`src/memory.rs`) -/

/-- `ApplicationFlash`: word cells, declared range `0x0000..0x3800`. -/
structure ApplicationFlash where
  data : List Nat
deriving Repr, DecidableEq

/-- `BootFlash`: word cells, declared range `0x3800..0x4000`. -/
structure BootFlash where
  data : List Nat
deriving Repr, DecidableEq

def ApplicationFlash.read (f : ApplicationFlash) (address : Nat) : Nat :=
  f.data.getD address 0

def ApplicationFlash.write (f : ApplicationFlash) (address data : Nat) :
    ApplicationFlash :=
  ⟨f.data.set address data⟩

def BootFlash.read (f : BootFlash) (address : Nat) : Nat :=
  f.data.getD (address - 0x3800) 0

def BootFlash.write (f : BootFlash) (address data : Nat) : BootFlash :=
  ⟨f.data.set (address - 0x3800) data⟩

/-- `ProgramMemory`: application flash plus boot flash, dispatch by range
containment; access outside both ranges panics. -/
structure ProgramMemory where
  app_flash : ApplicationFlash
  boot_flash : BootFlash
deriving Repr, DecidableEq

def ProgramMemory.read (m : ProgramMemory) (address : Nat) : Except String Nat :=
  if address < 0x3800 then .ok (m.app_flash.read address)
  else if 0x3800 ≤ address ∧ address < 0x4000 then .ok (m.boot_flash.read address)
  else .error ("Program memory does not contain address 0x" ++ rustHex address)

def ProgramMemory.write (m : ProgramMemory) (address data : Nat) :
    Except String ProgramMemory :=
  if address < 0x3800 then .ok { m with app_flash := m.app_flash.write address data }
  else if 0x3800 ≤ address ∧ address < 0x4000 then
    .ok { m with boot_flash := m.boot_flash.write address data }
  else .error ("Program memory does not contain address 0x" ++ rustHex address)

/-- `Sram`: register file, I/O, extended I/O and internal RAM sub-vectors. -/
structure Sram where
  registers : List Nat
  io_registers : List Nat
  ext_io_registers : List Nat
  internal_data : List Nat
deriving Repr, DecidableEq

/-- `Sram::default()`. -/
def Sram.default : Sram :=
  ⟨List.replicate 32 0, List.replicate 64 0, List.replicate 160 0,
   List.replicate 2048 0⟩

/-- `<Sram as Memory>::read`: range dispatch; the catch-all arm panics with the
region name and the offending address. -/
def Sram.read (s : Sram) (address : Nat) : Except String Nat :=
  if address ≤ 0x001F then .ok (s.registers.getD address 0)
  else if address ≤ 0x005F then .ok (s.io_registers.getD (address - 0x0020) 0)
  else if address ≤ 0x00FF then .ok (s.ext_io_registers.getD (address - 0x0060) 0)
  else if 0x0100 ≤ address ∧ address ≤ 0x08FF then
    .ok (s.internal_data.getD (address - 0x0100) 0)
  else .error ("SRAM does not contain address 0x" ++ rustHex address)

/-- `<Sram as Memory>::write`: the body is `todo!()`, which panics
unconditionally with the message below, before touching any byte. -/
def Sram.write (_s : Sram) (_address _data : Nat) : Except String Sram :=
  .error "not yet implemented"

/-! ## System (`src/system.rs`)

Only the `program_memory` field is modelled: the CPU's `step` never touches the
EEPROM, and the disassembler is modelled functionally below (its only state is
the listing it produced last). -/

structure System where
  program_memory : ProgramMemory
deriving Repr, DecidableEq

/-! ## CPU state (`Cpu`, `src/cpu.rs` lines 51-79) -/

structure Cpu where
  system : System
  sram : Sram
  sp : Nat
  status : Sreg
  pc : Nat
  cycles : Nat
  opcode : Nat
  /-- Observable stdout: each `println!` executed by a handler appends its
  rendered line here.  (Not a field of the Rust struct; it makes the
  diagnostic of the reserved-opcode handler visible to theorems.) -/
  log : List String
deriving Repr, DecidableEq

/-- Register-file read `self.sram.registers[i]` (indices produced by the decode
logic are always below 32, within the vector). -/
def Cpu.reg (cpu : Cpu) (i : Nat) : Nat := cpu.sram.registers.getD i 0

/-- Register-file write `self.sram.registers[i] = v`. -/
def Cpu.setReg (cpu : Cpu) (i v : Nat) : Cpu :=
  { cpu with sram := { cpu.sram with registers := cpu.sram.registers.set i v } }

/-! ## Instruction handlers (`impl Cpu`, `src/cpu.rs`)

Each Rust handler method becomes a function `Cpu → Cpu` (or
`Cpu → Except String Cpu` when its body contains overflow-checked arithmetic).
Handlers whose Rust body is empty are the identity. -/

/-- Operand decode shared by the two-register instructions: low 4 bits are the
low bits of `rr`, bits 8..4 the low bits of `rd`, and the high byte selects
which operand indices get `+16` (transcribed from each handler's `match`). -/
def twoRegOperands (opcode : Nat) (base : Nat) : Nat × Nat :=
  let rd := (opcode &&& 0xF0) >>> 4
  let rr := opcode &&& 0xF
  if high_byte opcode = base + 1 then (rd + 16, rr)
  else if high_byte opcode = base + 2 then (rd, rr + 16)
  else if high_byte opcode = base + 3 then (rd + 16, rr + 16)
  else (rd, rr)

/-- `Cpu::add` (opcode `0000 11rd dddd rrrr`).  Note two transcribed quirks of
the source: the result uses Rust's checked `+`, and `rd_bits`/`rr_bits` are the
bits of the register *indices* `rd`/`rr`, while `bits_u8` yields masked (not
0/1) bits that are then compared with `== 1`. -/
def add (cpu : Cpu) : Except String Cpu := do
  let (rd, rr) := twoRegOperands cpu.opcode 0x0C
  let result ← rustAddU8 (cpu.reg rd) (cpu.reg rr)
  let r_bits := bits_u8 result
  let rd_bits := bits_u8 rd
  let rr_bits := bits_u8 rr
  let h := ((rd_bits.b3 &&& rr_bits.b3) ||| (rr_bits.b3 &&& not8 r_bits.b3)
      ||| (not8 r_bits.b3 &&& rd_bits.b3)) == 1
  let v := ((rd_bits.b7 &&& rr_bits.b7 &&& not8 r_bits.b7)
      ||| (not8 rd_bits.b7 &&& not8 rr_bits.b7 &&& r_bits.b7)) == 1
  let n := r_bits.b7 == 1
  let s := (n.toNat ^^^ v.toNat) == 1
  let z := result == 0
  let c := ((rd_bits.b7 &&& rr_bits.b7) ||| (rr_bits.b7 &&& not8 r_bits.b7)
      ||| (not8 r_bits.b7 &&& rd_bits.b7)) == 1
  let cpu := { cpu with status :=
    { cpu.status with H := h, V := v, N := n, S := s, Z := z, C := c } }
  let cpu := cpu.setReg rd result
  return { cpu with pc := cpu.pc + 1, cycles := cpu.cycles + 1 }

/-- `Cpu::adc` (opcode `0001 11rd dddd rrrr`); the half-carry line of the
source uses `&` where the `add` handler has `|`, transcribed as-is. -/
def adc (cpu : Cpu) : Except String Cpu := do
  let (rd, rr) := twoRegOperands cpu.opcode 0x1C
  let t ← rustAddU8 (cpu.reg rd) (cpu.reg rr)
  let result ← rustAddU8 t cpu.status.C.toNat
  let r_bits := bits_u8 result
  let rd_bits := bits_u8 rd
  let rr_bits := bits_u8 rr
  let h := ((rd_bits.b3 &&& rr_bits.b3)
      ||| (rr_bits.b3 &&& not8 r_bits.b3 &&& r_bits.b3 &&& rd_bits.b3)) == 1
  let v := ((rd_bits.b7 &&& rr_bits.b7 &&& not8 r_bits.b7)
      ||| (not8 rd_bits.b7 &&& not8 rr_bits.b7 &&& r_bits.b7)) == 1
  let n := r_bits.b7 == 1
  let s := (n.toNat ^^^ v.toNat) == 1
  let z := result == 0
  let c := ((rd_bits.b7 &&& rr_bits.b7) ||| (rr_bits.b7 &&& not8 r_bits.b7)
      ||| (not8 r_bits.b7 &&& rd_bits.b7)) == 1
  let cpu := { cpu with status :=
    { cpu.status with H := h, V := v, N := n, S := s, Z := z, C := c } }
  let cpu := cpu.setReg rd result
  return { cpu with pc := cpu.pc + 1, cycles := cpu.cycles + 1 }

/-- `Cpu::adiw` (opcode `1001 0110 KKdd KKKK`). -/
def adiw (cpu : Cpu) : Except String Cpu := do
  let k := (cpu.opcode &&& 0xF) ||| ((cpu.opcode &&& 64) >>> 2)
      ||| ((cpu.opcode &&& 128) >>> 2)
  let d := (((cpu.opcode >>> 4) &&& 0xF) &&& 0x3) * 2 + 24
  let rd_low := cpu.reg d
  let rd_high := cpu.reg (d + 1)
  let rd := (rd_high <<< 8) ||| rd_low
  let result ← rustAddU16 rd k
  let result_low := result &&& 0xFF
  let result_high := (result >>> 8) &&& 0xFF
  let r_bits := bits_u16 result
  let rdh_bits := bits_u8 result_high
  let v := (not8 rdh_bits.b7 &&& r_bits.b15) == 1
  let n := r_bits.b15 == 1
  let s := (n.toNat ^^^ v.toNat) == 1
  let z := result == 0
  let c := (not8 r_bits.b15 &&& rdh_bits.b7) == 1
  let cpu := { cpu with status :=
    { cpu.status with V := v, N := n, S := s, Z := z, C := c } }
  let cpu := (cpu.setReg d result_low).setReg (d + 1) result_high
  return { cpu with pc := cpu.pc + 1, cycles := cpu.cycles + 2 }

/-- `Cpu::sub` (opcode `0001 10rd dddd rrrr`); the result uses
`wrapping_sub`. -/
def sub (cpu : Cpu) : Cpu :=
  let (rd, rr) := twoRegOperands cpu.opcode 0x18
  let result := wrappingSub8 (cpu.reg rd) (cpu.reg rr)
  let r_bits := bits_u8 result
  let rd_bits := bits_u8 rd
  let rr_bits := bits_u8 rr
  let h := ((not8 rd_bits.b3 &&& rr_bits.b3) ||| (rr_bits.b3 &&& r_bits.b3)
      ||| (r_bits.b3 &&& not8 rd_bits.b3)) == 1
  let v := ((rd_bits.b7 &&& not8 rr_bits.b7 &&& not8 r_bits.b7)
      ||| (not8 rd_bits.b7 &&& rr_bits.b7 &&& r_bits.b7)) == 1
  let n := r_bits.b7 == 1
  let s := (n.toNat ^^^ v.toNat) == 1
  let z := result == 0
  let c := ((not8 rd_bits.b7 &&& rr_bits.b7) ||| (rr_bits.b7 &&& r_bits.b7)
      ||| (r_bits.b7 &&& not8 rd_bits.b7)) == 1
  let cpu := { cpu with status :=
    { cpu.status with H := h, V := v, N := n, S := s, Z := z, C := c } }
  let cpu := cpu.setReg rd result
  { cpu with pc := cpu.pc + 1, cycles := cpu.cycles + 1 }

/-- `Cpu::subi` (opcode `0101 KKKK dddd KKKK`); the result uses Rust's checked
`-`, which panics on underflow. -/
def subi (cpu : Cpu) : Except String Cpu := do
  let rd := ((cpu.opcode &&& 0xF0) >>> 4) + 16
  let k := (((cpu.opcode >>> 8) &&& 0xF) <<< 4) ||| (cpu.opcode &&& 0xF)
  let result ← rustSubU8 (cpu.reg rd) k
  let r_bits := bits_u8 result
  let rd_bits := bits_u8 rd
  let k_bits := bits_u8 k
  let h := ((not8 rd_bits.b3 &&& k_bits.b3) ||| (k_bits.b3 &&& r_bits.b3)
      ||| (r_bits.b3 &&& not8 rd_bits.b3)) == 1
  let v := ((rd_bits.b7 &&& not8 k_bits.b7 &&& not8 r_bits.b7)
      ||| (not8 rd_bits.b7 &&& k_bits.b7 &&& r_bits.b7)) == 1
  let n := r_bits.b7 == 1
  let s := (n.toNat ^^^ v.toNat) == 1
  let z := result == 0
  let c := ((not8 rd_bits.b7 &&& k_bits.b7) ||| (k_bits.b7 &&& r_bits.b7)
      ||| (r_bits.b7 &&& not8 rd_bits.b7)) == 1
  let cpu := { cpu with status :=
    { cpu.status with H := h, V := v, N := n, S := s, Z := z, C := c } }
  let cpu := cpu.setReg rd result
  return { cpu with pc := cpu.pc + 1, cycles := cpu.cycles + 1 }

/-- `Cpu::sbc` (opcode `0000 10rd dddd rrrr`); checked `-` twice. -/
def sbc (cpu : Cpu) : Except String Cpu := do
  let (rd, rr) := twoRegOperands cpu.opcode 0x08
  let t ← rustSubU8 (cpu.reg rd) (cpu.reg rr)
  let result ← rustSubU8 t cpu.status.C.toNat
  let r_bits := bits_u8 result
  let rd_bits := bits_u8 rd
  let rr_bits := bits_u8 rr
  let h := ((not8 rd_bits.b3 &&& rr_bits.b3) ||| (rr_bits.b3 &&& r_bits.b3)
      ||| (r_bits.b3 &&& not8 rd_bits.b3)) == 1
  let v := ((rd_bits.b7 &&& not8 rr_bits.b7 &&& not8 r_bits.b7)
      ||| (not8 rd_bits.b7 &&& rr_bits.b7 &&& r_bits.b7)) == 1
  let n := r_bits.b7 == 1
  let s := (n.toNat ^^^ v.toNat) == 1
  let z := result == 0
  let c := ((not8 rd_bits.b7 &&& rr_bits.b7) ||| (rr_bits.b7 &&& r_bits.b7)
      ||| (r_bits.b7 &&& not8 rd_bits.b7)) == 1
  let cpu := { cpu with status :=
    { cpu.status with H := h, V := v, N := n, S := s, Z := z, C := c } }
  let cpu := cpu.setReg rd result
  return { cpu with pc := cpu.pc + 1, cycles := cpu.cycles + 1 }

/-- `Cpu::sbci` (opcode `0100 KKKK dddd KKKK`); checked `-` twice. -/
def sbci (cpu : Cpu) : Except String Cpu := do
  let rd := ((cpu.opcode &&& 0xF0) >>> 4) + 16
  let k := (((cpu.opcode >>> 8) &&& 0xF) <<< 4) ||| (cpu.opcode &&& 0xF)
  let t ← rustSubU8 (cpu.reg rd) k
  let result ← rustSubU8 t cpu.status.C.toNat
  let r_bits := bits_u8 result
  let rd_bits := bits_u8 rd
  let k_bits := bits_u8 k
  let h := ((not8 rd_bits.b3 &&& k_bits.b3) ||| (k_bits.b3 &&& r_bits.b3)
      ||| (r_bits.b3 &&& not8 rd_bits.b3)) == 1
  let v := ((rd_bits.b7 &&& not8 k_bits.b7 &&& not8 r_bits.b7)
      ||| (not8 rd_bits.b7 &&& k_bits.b7 &&& r_bits.b7)) == 1
  let n := r_bits.b7 == 1
  let s := (n.toNat ^^^ v.toNat) == 1
  let z := result == 0
  let c := ((not8 rd_bits.b7 &&& k_bits.b7) ||| (k_bits.b7 &&& r_bits.b7)
      ||| (r_bits.b7 &&& not8 rd_bits.b7)) == 1
  let cpu := { cpu with status :=
    { cpu.status with H := h, V := v, N := n, S := s, Z := z, C := c } }
  let cpu := cpu.setReg rd result
  return { cpu with pc := cpu.pc + 1, cycles := cpu.cycles + 1 }

/-- `Cpu::sbiw` (opcode `1001 0111 KKdd KKKK`); checked `-` on the 16-bit
pair. -/
def sbiw (cpu : Cpu) : Except String Cpu := do
  let k := (cpu.opcode &&& 0xF) ||| ((cpu.opcode &&& 64) >>> 2)
      ||| ((cpu.opcode &&& 128) >>> 2)
  let d := (((cpu.opcode >>> 4) &&& 0xF) &&& 0x3) * 2 + 24
  let rd_low := cpu.reg d
  let rd_high := cpu.reg (d + 1)
  let rd := (rd_high <<< 8) ||| rd_low
  let result ← rustSubU16 rd k
  let result_low := result &&& 0xFF
  let result_high := (result >>> 8) &&& 0xFF
  let r_bits := bits_u16 result
  let rdh_bits := bits_u8 result_high
  let v := (r_bits.b15 &&& not8 rdh_bits.b7) == 1
  let n := r_bits.b15 == 1
  let s := (n.toNat ^^^ v.toNat) == 1
  let z := result == 0
  let c := (r_bits.b15 &&& not8 rdh_bits.b7) == 1
  let cpu := { cpu with status :=
    { cpu.status with V := v, N := n, S := s, Z := z, C := c } }
  let cpu := (cpu.setReg d result_low).setReg (d + 1) result_high
  return { cpu with pc := cpu.pc + 1, cycles := cpu.cycles + 2 }

/-- `Cpu::and` (opcode `0010 00rd dddd rrrr`). -/
def and (cpu : Cpu) : Cpu :=
  let (rd, rr) := twoRegOperands cpu.opcode 0x20
  let result := (cpu.reg rd) &&& (cpu.reg rr)
  let r := bits_u8 result
  let v := false
  let n := r.b7 == 1
  let z := result == 0
  let s := (n.toNat ^^^ v.toNat) == 1
  let cpu := { cpu with status :=
    { cpu.status with V := v, N := n, Z := z, S := s } }
  let cpu := cpu.setReg rd result
  { cpu with pc := cpu.pc + 1, cycles := cpu.cycles + 1 }

/-- `Cpu::andi` (opcode `0111 KKKK dddd KKKK`). -/
def andi (cpu : Cpu) : Cpu :=
  let rd := ((cpu.opcode &&& 0xF0) >>> 4) + 16
  let k := (((cpu.opcode >>> 8) &&& 0xF) <<< 4) ||| (cpu.opcode &&& 0xF)
  let result := (cpu.reg rd) &&& k
  let r_bits := bits_u8 result
  let v := false
  let n := r_bits.b7 == 1
  let s := (n.toNat ^^^ v.toNat) == 1
  let z := result == 0
  let cpu := { cpu with status :=
    { cpu.status with V := v, N := n, S := s, Z := z } }
  let cpu := cpu.setReg rd result
  { cpu with pc := cpu.pc + 1, cycles := cpu.cycles + 1 }

/-- `Cpu::or` (opcode `0010 10rd dddd rrrr`). -/
def or (cpu : Cpu) : Cpu :=
  let (rd, rr) := twoRegOperands cpu.opcode 0x28
  let result := (cpu.reg rd) ||| (cpu.reg rr)
  let r_bits := bits_u8 result
  let v := false
  let n := r_bits.b7 == 1
  let s := (n.toNat ^^^ v.toNat) == 1
  let z := result == 0
  let cpu := { cpu with status :=
    { cpu.status with V := v, N := n, S := s, Z := z } }
  let cpu := cpu.setReg rd result
  { cpu with pc := cpu.pc + 1, cycles := cpu.cycles + 1 }

/-- `Cpu::ori` (opcode `0110 KKKK dddd KKKK`). -/
def ori (cpu : Cpu) : Cpu :=
  let rd := ((cpu.opcode &&& 0xF0) >>> 4) + 16
  let k := (((cpu.opcode >>> 8) &&& 0xF) <<< 4) ||| (cpu.opcode &&& 0xF)
  let result := (cpu.reg rd) ||| k
  let r_bits := bits_u8 result
  let v := false
  let n := r_bits.b7 == 1
  let s := (n.toNat ^^^ v.toNat) == 1
  let z := result == 0
  let cpu := { cpu with status :=
    { cpu.status with V := v, N := n, S := s, Z := z } }
  let cpu := cpu.setReg rd result
  { cpu with pc := cpu.pc + 1, cycles := cpu.cycles + 1 }

/-- `Cpu::eor` (opcode `0010 01rd dddd rrrr`). -/
def eor (cpu : Cpu) : Cpu :=
  let (rd, rr) := twoRegOperands cpu.opcode 0x24
  let result := (cpu.reg rd) ^^^ (cpu.reg rr)
  let r_bits := bits_u8 result
  let v := false
  let n := r_bits.b7 == 1
  let s := (n.toNat ^^^ v.toNat) == 1
  let z := result == 0
  let cpu := { cpu with status :=
    { cpu.status with V := v, N := n, S := s, Z := z } }
  let cpu := cpu.setReg rd result
  { cpu with pc := cpu.pc + 1, cycles := cpu.cycles + 1 }

/-- Single-register operand decode for `com`/`neg`/`inc`/`dec`: bits 7..4,
plus 16 when the high byte is `0x95`. -/
def oneRegOperand (opcode : Nat) : Nat :=
  let rd := (opcode &&& 0xF0) >>> 4
  if high_byte opcode = 0x95 then rd + 16 else rd

/-- `Cpu::com` (opcode `1001 010d dddd 0000`); `0xFF - Rd` with checked `-`. -/
def com (cpu : Cpu) : Except String Cpu := do
  let rd := oneRegOperand cpu.opcode
  let result ← rustSubU8 0xFF (cpu.reg rd)
  let r_bits := bits_u8 result
  let v := false
  let n := r_bits.b7 == 1
  let s := (n.toNat ^^^ v.toNat) == 1
  let z := result == 0
  let cpu := { cpu with status :=
    { cpu.status with V := v, N := n, S := s, Z := z, C := true } }
  let cpu := cpu.setReg rd result
  return { cpu with pc := cpu.pc + 1, cycles := cpu.cycles + 1 }

/-- `Cpu::neg` (opcode `1001 010d dddd 0001`); `0u8.wrapping_sub(Rd)`. -/
def neg (cpu : Cpu) : Cpu :=
  let rd := oneRegOperand cpu.opcode
  let result := wrappingSub8 0 (cpu.reg rd)
  let r_bits := bits_u8 result
  let rd_bits := bits_u8 rd
  let h := (r_bits.b3 ||| not8 rd_bits.b3) == 1
  let v := (r_bits.b7 &&& not8 r_bits.b6 &&& not8 r_bits.b5 &&& not8 r_bits.b4
      &&& not8 r_bits.b3 &&& not8 r_bits.b2 &&& not8 r_bits.b1
      &&& not8 r_bits.b0) == 1
  let n := r_bits.b7 == 1
  let s := (n.toNat ^^^ v.toNat) == 1
  let z := result == 0
  let c := (r_bits.b7 ||| r_bits.b6 ||| r_bits.b5 ||| r_bits.b4 ||| r_bits.b3
      ||| r_bits.b2 ||| r_bits.b1 ||| r_bits.b0) == 1
  let cpu := { cpu with status :=
    { cpu.status with H := h, V := v, N := n, S := s, Z := z, C := c } }
  let cpu := cpu.setReg rd result
  { cpu with pc := cpu.pc + 1, cycles := cpu.cycles + 1 }

/-- `Cpu::inc` (opcode `1001 010d dddd 0011`); `Rd + 1` with checked `+`. -/
def inc (cpu : Cpu) : Except String Cpu := do
  let rd := oneRegOperand cpu.opcode
  let result ← rustAddU8 (cpu.reg rd) 1
  let r_bits := bits_u8 result
  let v := (r_bits.b7 &&& not8 r_bits.b6 &&& not8 r_bits.b5 &&& not8 r_bits.b4
      &&& not8 r_bits.b3 &&& not8 r_bits.b2 &&& not8 r_bits.b1
      &&& not8 r_bits.b0) == 1
  let n := r_bits.b7 == 1
  let s := (n.toNat ^^^ v.toNat) == 1
  let z := (not8 r_bits.b7 &&& not8 r_bits.b6 &&& not8 r_bits.b5
      &&& not8 r_bits.b4 &&& not8 r_bits.b3 &&& not8 r_bits.b2
      &&& not8 r_bits.b1 &&& not8 r_bits.b0) == 1
  let cpu := { cpu with status :=
    { cpu.status with V := v, N := n, S := s, Z := z } }
  let cpu := cpu.setReg rd result
  return { cpu with pc := cpu.pc + 1, cycles := cpu.cycles + 1 }

/-- `Cpu::dec` (opcode `1001 010d dddd 1010`); `Rd.wrapping_sub(1)`. -/
def dec (cpu : Cpu) : Cpu :=
  let rd := oneRegOperand cpu.opcode
  let result := wrappingSub8 (cpu.reg rd) 1
  let r_bits := bits_u8 result
  let v := (not8 r_bits.b7 &&& r_bits.b6 &&& r_bits.b5 &&& r_bits.b4
      &&& r_bits.b3 &&& r_bits.b2 &&& r_bits.b1 &&& r_bits.b0) == 1
  let n := r_bits.b7 == 1
  let s := (n.toNat ^^^ v.toNat) == 1
  let z := (not8 r_bits.b7 &&& not8 r_bits.b6 &&& not8 r_bits.b5
      &&& not8 r_bits.b4 &&& not8 r_bits.b3 &&& not8 r_bits.b2
      &&& not8 r_bits.b1 &&& not8 r_bits.b0) == 1
  let cpu := { cpu with status :=
    { cpu.status with V := v, N := n, S := s, Z := z } }
  let cpu := cpu.setReg rd result
  { cpu with pc := cpu.pc + 1, cycles := cpu.cycles + 1 }

/-- `Cpu::des`: only advances `pc` and `cycles`. -/
def des (cpu : Cpu) : Cpu :=
  { cpu with pc := cpu.pc + 1, cycles := cpu.cycles + 1 }

/-- `Cpu::mul` (opcode `1001 11rd dddd rrrr`).  Transcribed quirks: `Z` is set
from `result == 1` (not `== 0`), `C` from component 15 of `bits_u16` (always 0
after the `as u8` cast), and only 1 cycle is added. -/
def mul (cpu : Cpu) : Except String Cpu := do
  let (rd, rr) := twoRegOperands cpu.opcode 0x9C
  let result ← rustMulU16 (cpu.reg rd) (cpu.reg rr)
  let result_low := result &&& 0xFF
  let result_high := (result >>> 8) &&& 0xFF
  let r_bits := bits_u16 result
  let cpu := { cpu with status :=
    { cpu.status with C := r_bits.b15 == 1, Z := result == 1 } }
  let cpu := (cpu.setReg 0 result_low).setReg 1 result_high
  return { cpu with pc := cpu.pc + 1, cycles := cpu.cycles + 1 }

/-- `Cpu::muls` (opcode `0000 0010 dddd rrrr`). -/
def muls (cpu : Cpu) : Except String Cpu := do
  let rd := ((cpu.opcode &&& 0xF0) >>> 4) + 16
  let rr := (cpu.opcode &&& 0xF) + 16
  let result ← rustMulU16 (wrappingNeg8 (cpu.reg rd)) (wrappingNeg8 (cpu.reg rr))
  let result_low := result &&& 0xFF
  let result_high := (result >>> 8) &&& 0xFF
  let r_bits := bits_u16 result
  let cpu := { cpu with status :=
    { cpu.status with C := r_bits.b15 == 1, Z := result == 1 } }
  let cpu := (cpu.setReg 0 result_low).setReg 1 result_high
  return { cpu with pc := cpu.pc + 1, cycles := cpu.cycles + 1 }

/-- `Cpu::mulsu` (opcode `0000 0011 0ddd 0rrr`). -/
def mulsu (cpu : Cpu) : Cpu :=
  let rd := ((cpu.opcode &&& 0x70) >>> 4) + 16
  let rr := (cpu.opcode &&& 0x7) + 16
  let result := wrappingMul16 (wrappingNeg16 (cpu.reg rd)) (cpu.reg rr)
  let result_low := result &&& 0xFF
  let result_high := (result >>> 8) &&& 0xFF
  let r_bits := bits_u16 result
  let cpu := { cpu with status :=
    { cpu.status with C := r_bits.b15 == 1, Z := result == 1 } }
  let cpu := (cpu.setReg 0 result_low).setReg 1 result_high
  { cpu with pc := cpu.pc + 1, cycles := cpu.cycles + 1 }

/-- `Cpu::nop`. -/
def nop (cpu : Cpu) : Cpu :=
  { cpu with cycles := cpu.cycles + 1, pc := cpu.pc + 1 }

/-- `Cpu::sleep`. -/
def sleep (cpu : Cpu) : Cpu :=
  { cpu with cycles := cpu.cycles + 1, pc := cpu.pc + 1 }

/-- `Cpu::wdr`. -/
def wdr (cpu : Cpu) : Cpu :=
  { cpu with cycles := cpu.cycles + 1, pc := cpu.pc + 1 }

/-- `Cpu::reserved`: prints a diagnostic, bills 1 cycle, advances `pc` by 1,
changes nothing else. -/
def reserved (cpu : Cpu) : Cpu :=
  { cpu with
    log := cpu.log ++ ["Reserved opcode: " ++ rustHex cpu.opcode]
    cycles := cpu.cycles + 1
    pc := cpu.pc + 1 }

/-! Flag set/clear handlers (`sec` .. `clh`): set or clear one flag, advance
`pc` by 1, add 1 cycle. -/

def sec (cpu : Cpu) : Cpu :=
  { cpu with
    status := { cpu.status with C := true }
    pc := cpu.pc + 1
    cycles := cpu.cycles + 1 }

def clc (cpu : Cpu) : Cpu :=
  { cpu with
    status := { cpu.status with C := false }
    pc := cpu.pc + 1
    cycles := cpu.cycles + 1 }

def sen (cpu : Cpu) : Cpu :=
  { cpu with
    status := { cpu.status with N := true }
    pc := cpu.pc + 1
    cycles := cpu.cycles + 1 }

def cln (cpu : Cpu) : Cpu :=
  { cpu with
    status := { cpu.status with N := false }
    pc := cpu.pc + 1
    cycles := cpu.cycles + 1 }

def sez (cpu : Cpu) : Cpu :=
  { cpu with
    status := { cpu.status with Z := true }
    pc := cpu.pc + 1
    cycles := cpu.cycles + 1 }

def clz (cpu : Cpu) : Cpu :=
  { cpu with
    status := { cpu.status with Z := false }
    pc := cpu.pc + 1
    cycles := cpu.cycles + 1 }

def sei (cpu : Cpu) : Cpu :=
  { cpu with
    status := { cpu.status with I := true }
    pc := cpu.pc + 1
    cycles := cpu.cycles + 1 }

def cli (cpu : Cpu) : Cpu :=
  { cpu with
    status := { cpu.status with I := false }
    pc := cpu.pc + 1
    cycles := cpu.cycles + 1 }

def ses (cpu : Cpu) : Cpu :=
  { cpu with
    status := { cpu.status with S := true }
    pc := cpu.pc + 1
    cycles := cpu.cycles + 1 }

def cls (cpu : Cpu) : Cpu :=
  { cpu with
    status := { cpu.status with S := false }
    pc := cpu.pc + 1
    cycles := cpu.cycles + 1 }

def sev (cpu : Cpu) : Cpu :=
  { cpu with
    status := { cpu.status with V := true }
    pc := cpu.pc + 1
    cycles := cpu.cycles + 1 }

def clv (cpu : Cpu) : Cpu :=
  { cpu with
    status := { cpu.status with V := false }
    pc := cpu.pc + 1
    cycles := cpu.cycles + 1 }

def set (cpu : Cpu) : Cpu :=
  { cpu with
    status := { cpu.status with T := true }
    pc := cpu.pc + 1
    cycles := cpu.cycles + 1 }

def clt (cpu : Cpu) : Cpu :=
  { cpu with
    status := { cpu.status with T := false }
    pc := cpu.pc + 1
    cycles := cpu.cycles + 1 }

def seh (cpu : Cpu) : Cpu :=
  { cpu with
    status := { cpu.status with H := true }
    pc := cpu.pc + 1
    cycles := cpu.cycles + 1 }

def clh (cpu : Cpu) : Cpu :=
  { cpu with
    status := { cpu.status with H := false }
    pc := cpu.pc + 1
    cycles := cpu.cycles + 1 }

/-! Handlers whose Rust body is empty (`fn xyz(&mut self) {}`): they change
nothing, not even `pc` or `cycles`. -/

def fmul (cpu : Cpu) : Cpu := cpu
def fmuls (cpu : Cpu) : Cpu := cpu
def fmulsu (cpu : Cpu) : Cpu := cpu
def rjmp (cpu : Cpu) : Cpu := cpu
def ijmp (cpu : Cpu) : Cpu := cpu
def jmp (cpu : Cpu) : Cpu := cpu
def rcall (cpu : Cpu) : Cpu := cpu
def icall (cpu : Cpu) : Cpu := cpu
def call (cpu : Cpu) : Cpu := cpu
def ret (cpu : Cpu) : Cpu := cpu
def reti (cpu : Cpu) : Cpu := cpu
def cpse (cpu : Cpu) : Cpu := cpu
def cp (cpu : Cpu) : Cpu := cpu
def cpc (cpu : Cpu) : Cpu := cpu
def cpi (cpu : Cpu) : Cpu := cpu
def sbrc (cpu : Cpu) : Cpu := cpu
def sbrs (cpu : Cpu) : Cpu := cpu
def sbic (cpu : Cpu) : Cpu := cpu
def sbis (cpu : Cpu) : Cpu := cpu
def breq (cpu : Cpu) : Cpu := cpu
def brne (cpu : Cpu) : Cpu := cpu
def brcs (cpu : Cpu) : Cpu := cpu
def brcc (cpu : Cpu) : Cpu := cpu
def brmi (cpu : Cpu) : Cpu := cpu
def brpl (cpu : Cpu) : Cpu := cpu
def brge (cpu : Cpu) : Cpu := cpu
def brlt (cpu : Cpu) : Cpu := cpu
def brhs (cpu : Cpu) : Cpu := cpu
def brhc (cpu : Cpu) : Cpu := cpu
def brts (cpu : Cpu) : Cpu := cpu
def brtc (cpu : Cpu) : Cpu := cpu
def brvs (cpu : Cpu) : Cpu := cpu
def brvc (cpu : Cpu) : Cpu := cpu
def brie (cpu : Cpu) : Cpu := cpu
def brid (cpu : Cpu) : Cpu := cpu
def sbi (cpu : Cpu) : Cpu := cpu
def cbi (cpu : Cpu) : Cpu := cpu
def lsr (cpu : Cpu) : Cpu := cpu
def ror (cpu : Cpu) : Cpu := cpu
def asr (cpu : Cpu) : Cpu := cpu
def swap (cpu : Cpu) : Cpu := cpu
def bst (cpu : Cpu) : Cpu := cpu
def bld (cpu : Cpu) : Cpu := cpu
def mov (cpu : Cpu) : Cpu := cpu
def movw (cpu : Cpu) : Cpu := cpu
def ldi (cpu : Cpu) : Cpu := cpu
def ld_x (cpu : Cpu) : Cpu := cpu
def ld_y (cpu : Cpu) : Cpu := cpu
def ld_z (cpu : Cpu) : Cpu := cpu
def ldd (cpu : Cpu) : Cpu := cpu
def lds (cpu : Cpu) : Cpu := cpu
def st_x (cpu : Cpu) : Cpu := cpu
def st_y (cpu : Cpu) : Cpu := cpu
def st_z (cpu : Cpu) : Cpu := cpu
def std (cpu : Cpu) : Cpu := cpu
def sts (cpu : Cpu) : Cpu := cpu
def lpm (cpu : Cpu) : Cpu := cpu
def spm (cpu : Cpu) : Cpu := cpu
def in_ (cpu : Cpu) : Cpu := cpu
def out (cpu : Cpu) : Cpu := cpu
def push (cpu : Cpu) : Cpu := cpu
def pop (cpu : Cpu) : Cpu := cpu
def break_ (cpu : Cpu) : Cpu := cpu

/-! ## Fetch-decode-execute (`Cpu::step`, `src/cpu.rs` lines 1060-1262) -/

/-- `Cpu::step`: fetch the word at `pc`, latch it into `opcode`, and dispatch
through the decode tree.  The nested Rust `match` on inclusive opcode ranges is
transcribed as an ordered `if`-chain (each guard's lower bound is implied by
the preceding arms, exactly as in an ordered `match`). -/
def step (cpu : Cpu) : Except String Cpu := do
  let opcode ← cpu.system.program_memory.read cpu.pc
  let cpu := { cpu with opcode := opcode }
  let lowByte := opcode &&& 0xF
  let highByte := (opcode >>> 4) &&& 0xF
  if opcode ≤ 0x00FF then
    if opcode &&& 0xFF == 0x00 then pure (nop cpu) else pure (reserved cpu)
  else if opcode ≤ 0x01FF then pure (movw cpu)
  else if opcode ≤ 0x02FF then muls cpu
  else if opcode ≤ 0x03FF then
    if lowByte ≤ 0x7 then
      if highByte ≤ 0x7 then pure (mulsu cpu) else pure (fmuls cpu)
    else
      if highByte ≤ 0x7 then pure (fmul cpu) else pure (fmulsu cpu)
  else if opcode ≤ 0x07FF then pure (cpc cpu)
  else if opcode ≤ 0x0BFF then sbc cpu
  else if opcode ≤ 0x0FFF then add cpu
  else if opcode ≤ 0x13FF then pure (cpse cpu)
  else if opcode ≤ 0x17FF then pure (cp cpu)
  else if opcode ≤ 0x1BFF then pure (sub cpu)
  else if opcode ≤ 0x1FFF then adc cpu
  else if opcode ≤ 0x23FF then pure (and cpu)
  else if opcode ≤ 0x27FF then pure (eor cpu)
  else if opcode ≤ 0x2BFF then pure (or cpu)
  else if opcode ≤ 0x2FFF then pure (mov cpu)
  else if opcode ≤ 0x3FFF then pure (cpi cpu)
  else if opcode ≤ 0x4FFF then sbci cpu
  else if opcode ≤ 0x5FFF then subi cpu
  else if opcode ≤ 0x6FFF then pure (ori cpu)
  else if opcode ≤ 0x7FFF then pure (andi cpu)
  else if opcode ≤ 0x81FF then pure (ldd cpu)
  else if opcode ≤ 0x83FF then pure (std cpu)
  else if opcode ≤ 0x85FF then pure (ldd cpu)
  else if opcode ≤ 0x87FF then pure (std cpu)
  else if opcode ≤ 0x89FF then pure (ldd cpu)
  else if opcode ≤ 0x8BFF then pure (std cpu)
  else if opcode ≤ 0x8DFF then pure (ldd cpu)
  else if opcode ≤ 0x8FFF then pure (std cpu)
  else if opcode ≤ 0x91FF then
    if lowByte == 0x0 then pure (lds cpu)
    else if lowByte ≤ 0x2 then pure (ld_z cpu)
    else if lowByte == 0x3 then pure (reserved cpu)
    else if lowByte ≤ 0x5 then pure (lpm cpu)
    else if lowByte ≤ 0x8 then pure (reserved cpu)
    else if lowByte ≤ 0xA then pure (ld_y cpu)
    else if lowByte == 0xB then pure (reserved cpu)
    else if lowByte ≤ 0xE then pure (ld_x cpu)
    else pure (pop cpu)
  else if opcode ≤ 0x93FF then
    if lowByte == 0x0 then pure (sts cpu)
    else if lowByte ≤ 0x2 then pure (st_z cpu)
    else if lowByte ≤ 0x8 then pure (reserved cpu)
    else if lowByte ≤ 0xA then pure (st_y cpu)
    else if lowByte == 0xB then pure (reserved cpu)
    else if lowByte ≤ 0xE then pure (st_x cpu)
    else pure (push cpu)
  else if opcode ≤ 0x94FF then
    if lowByte == 0x0 then com cpu
    else if lowByte == 0x1 then pure (neg cpu)
    else if lowByte == 0x2 then pure (swap cpu)
    else if lowByte == 0x3 then inc cpu
    else if lowByte == 0x4 then pure (reserved cpu)
    else if lowByte == 0x5 then pure (asr cpu)
    else if lowByte == 0x6 then pure (lsr cpu)
    else if lowByte == 0x7 then pure (ror cpu)
    else if lowByte == 0x8 then
      if highByte == 0x0 then pure (sec cpu)
      else if highByte == 0x1 then pure (sez cpu)
      else if highByte == 0x2 then pure (sen cpu)
      else if highByte == 0x3 then pure (sev cpu)
      else if highByte == 0x4 then pure (ses cpu)
      else if highByte == 0x5 then pure (seh cpu)
      else if highByte == 0x6 then pure (set cpu)
      else if highByte == 0x7 then pure (sei cpu)
      else if highByte == 0x8 then pure (clc cpu)
      else if highByte == 0x9 then pure (clz cpu)
      else if highByte == 0xA then pure (cln cpu)
      else if highByte == 0xB then pure (clv cpu)
      else if highByte == 0xC then pure (cls cpu)
      else if highByte == 0xD then pure (clh cpu)
      else if highByte == 0xE then pure (clt cpu)
      else pure (cli cpu)
    else if lowByte == 0x9 then
      if highByte == 0x0 then pure (ijmp cpu) else pure (reserved cpu)
    else if lowByte == 0xA then pure (dec cpu)
    else if lowByte == 0xB then pure (des cpu)
    else if lowByte ≤ 0xD then pure (jmp cpu)
    else pure (call cpu)
  else if opcode ≤ 0x95FF then
    if lowByte == 0x00 then com cpu
    else if lowByte == 0x01 then pure (neg cpu)
    else if lowByte == 0x02 then pure (swap cpu)
    else if lowByte == 0x03 then inc cpu
    else if lowByte == 0x04 then pure (reserved cpu)
    else if lowByte == 0x05 then pure (asr cpu)
    else if lowByte == 0x06 then pure (lsr cpu)
    else if lowByte == 0x07 then pure (ror cpu)
    else if lowByte == 0x08 then
      if highByte == 0x0 then pure (ret cpu)
      else if highByte == 0x1 then pure (reti cpu)
      else if highByte == 0x8 then pure (sleep cpu)
      else if highByte == 0x9 then pure (break_ cpu)
      else if highByte == 0xA then pure (wdr cpu)
      else if highByte == 0xC then pure (lpm cpu)
      else if 0xE ≤ highByte ∧ highByte ≤ 0xF then pure (spm cpu)
      else pure (reserved cpu)
    else if lowByte == 0x09 then
      if highByte == 0x0 then pure (icall cpu) else pure (reserved cpu)
    else if lowByte == 0x0A then pure (dec cpu)
    else if lowByte == 0x0B then pure (reserved cpu)
    else if lowByte ≤ 0xD then pure (jmp cpu)
    else pure (call cpu)
  else if opcode ≤ 0x96FF then adiw cpu
  else if opcode ≤ 0x97FF then sbiw cpu
  else if opcode ≤ 0x98FF then pure (cbi cpu)
  else if opcode ≤ 0x99FF then pure (sbic cpu)
  else if opcode ≤ 0x9AFF then pure (sbi cpu)
  else if opcode ≤ 0x9BFF then pure (sbis cpu)
  else if opcode ≤ 0x9FFF then mul cpu
  else if opcode ≤ 0xA1FF then pure (ldd cpu)
  else if opcode ≤ 0xA3FF then pure (std cpu)
  else if opcode ≤ 0xA5FF then pure (ldd cpu)
  else if opcode ≤ 0xA7FF then pure (std cpu)
  else if opcode ≤ 0xA9FF then pure (ldd cpu)
  else if opcode ≤ 0xABFF then pure (std cpu)
  else if opcode ≤ 0xADFF then pure (ldd cpu)
  else if opcode ≤ 0xAFFF then pure (std cpu)
  else if opcode ≤ 0xB7FF then pure (in_ cpu)
  else if opcode ≤ 0xBFFF then pure (out cpu)
  else if opcode ≤ 0xCFFF then pure (rjmp cpu)
  else if opcode ≤ 0xDFFF then pure (rcall cpu)
  else if opcode ≤ 0xEFFF then pure (ldi cpu)
  else if opcode ≤ 0xF3FF then
    if lowByte == 0x0 then pure (brcs cpu)
    else if lowByte == 0x1 then pure (breq cpu)
    else if lowByte == 0x2 then pure (brmi cpu)
    else if lowByte == 0x3 then pure (brvs cpu)
    else if lowByte == 0x4 then pure (brlt cpu)
    else if lowByte == 0x5 then pure (brhs cpu)
    else if lowByte == 0x6 then pure (brts cpu)
    else if lowByte == 0x7 then pure (brie cpu)
    else if lowByte == 0x8 then pure (brcs cpu)
    else if lowByte == 0x9 then pure (breq cpu)
    else if lowByte == 0xA then pure (brmi cpu)
    else if lowByte == 0xB then pure (brvs cpu)
    else if lowByte == 0xC then pure (brlt cpu)
    else if lowByte == 0xD then pure (brhs cpu)
    else if lowByte == 0xE then pure (brts cpu)
    else pure (brie cpu)
  else if opcode ≤ 0xF7FF then
    if lowByte == 0x0 then pure (brcc cpu)
    else if lowByte == 0x1 then pure (brne cpu)
    else if lowByte == 0x2 then pure (brpl cpu)
    else if lowByte == 0x3 then pure (brvc cpu)
    else if lowByte == 0x4 then pure (brge cpu)
    else if lowByte == 0x5 then pure (brhc cpu)
    else if lowByte == 0x6 then pure (brtc cpu)
    else if lowByte == 0x7 then pure (brid cpu)
    else if lowByte == 0x8 then pure (brcc cpu)
    else if lowByte == 0x9 then pure (brne cpu)
    else if lowByte == 0xA then pure (brpl cpu)
    else if lowByte == 0xB then pure (brvc cpu)
    else if lowByte == 0xC then pure (brge cpu)
    else if lowByte == 0xD then pure (brhc cpu)
    else if lowByte == 0xE then pure (brtc cpu)
    else pure (brid cpu)
  else if opcode ≤ 0xF9FF then pure (bld cpu)
  else if opcode ≤ 0xFBFF then pure (bst cpu)
  else if opcode ≤ 0xFDFF then pure (sbrc cpu)
  else pure (sbrs cpu)

/-- The name of the `Cpu` handler method that `Cpu::step` invokes for a given
opcode word: a second transcription of the decode tree of `Cpu::step`, with
each `self.xyz()` call replaced by the string `"xyz"` (so `"reserved"` marks
the reserved-encoding handler, and the Rust keyword-escaped names `in_` and
`break_` appear verbatim). -/
def stepHandlerName (opcode : Nat) : String :=
  let lowByte := opcode &&& 0xF
  let highByte := (opcode >>> 4) &&& 0xF
  if opcode ≤ 0x00FF then
    if opcode &&& 0xFF == 0x00 then "nop" else "reserved"
  else if opcode ≤ 0x01FF then "movw"
  else if opcode ≤ 0x02FF then "muls"
  else if opcode ≤ 0x03FF then
    if lowByte ≤ 0x7 then
      if highByte ≤ 0x7 then "mulsu" else "fmuls"
    else
      if highByte ≤ 0x7 then "fmul" else "fmulsu"
  else if opcode ≤ 0x07FF then "cpc"
  else if opcode ≤ 0x0BFF then "sbc"
  else if opcode ≤ 0x0FFF then "add"
  else if opcode ≤ 0x13FF then "cpse"
  else if opcode ≤ 0x17FF then "cp"
  else if opcode ≤ 0x1BFF then "sub"
  else if opcode ≤ 0x1FFF then "adc"
  else if opcode ≤ 0x23FF then "and"
  else if opcode ≤ 0x27FF then "eor"
  else if opcode ≤ 0x2BFF then "or"
  else if opcode ≤ 0x2FFF then "mov"
  else if opcode ≤ 0x3FFF then "cpi"
  else if opcode ≤ 0x4FFF then "sbci"
  else if opcode ≤ 0x5FFF then "subi"
  else if opcode ≤ 0x6FFF then "ori"
  else if opcode ≤ 0x7FFF then "andi"
  else if opcode ≤ 0x81FF then "ldd"
  else if opcode ≤ 0x83FF then "std"
  else if opcode ≤ 0x85FF then "ldd"
  else if opcode ≤ 0x87FF then "std"
  else if opcode ≤ 0x89FF then "ldd"
  else if opcode ≤ 0x8BFF then "std"
  else if opcode ≤ 0x8DFF then "ldd"
  else if opcode ≤ 0x8FFF then "std"
  else if opcode ≤ 0x91FF then
    if lowByte == 0x0 then "lds"
    else if lowByte ≤ 0x2 then "ld_z"
    else if lowByte == 0x3 then "reserved"
    else if lowByte ≤ 0x5 then "lpm"
    else if lowByte ≤ 0x8 then "reserved"
    else if lowByte ≤ 0xA then "ld_y"
    else if lowByte == 0xB then "reserved"
    else if lowByte ≤ 0xE then "ld_x"
    else "pop"
  else if opcode ≤ 0x93FF then
    if lowByte == 0x0 then "sts"
    else if lowByte ≤ 0x2 then "st_z"
    else if lowByte ≤ 0x8 then "reserved"
    else if lowByte ≤ 0xA then "st_y"
    else if lowByte == 0xB then "reserved"
    else if lowByte ≤ 0xE then "st_x"
    else "push"
  else if opcode ≤ 0x94FF then
    if lowByte == 0x0 then "com"
    else if lowByte == 0x1 then "neg"
    else if lowByte == 0x2 then "swap"
    else if lowByte == 0x3 then "inc"
    else if lowByte == 0x4 then "reserved"
    else if lowByte == 0x5 then "asr"
    else if lowByte == 0x6 then "lsr"
    else if lowByte == 0x7 then "ror"
    else if lowByte == 0x8 then
      if highByte == 0x0 then "sec"
      else if highByte == 0x1 then "sez"
      else if highByte == 0x2 then "sen"
      else if highByte == 0x3 then "sev"
      else if highByte == 0x4 then "ses"
      else if highByte == 0x5 then "seh"
      else if highByte == 0x6 then "set"
      else if highByte == 0x7 then "sei"
      else if highByte == 0x8 then "clc"
      else if highByte == 0x9 then "clz"
      else if highByte == 0xA then "cln"
      else if highByte == 0xB then "clv"
      else if highByte == 0xC then "cls"
      else if highByte == 0xD then "clh"
      else if highByte == 0xE then "clt"
      else "cli"
    else if lowByte == 0x9 then
      if highByte == 0x0 then "ijmp" else "reserved"
    else if lowByte == 0xA then "dec"
    else if lowByte == 0xB then "des"
    else if lowByte ≤ 0xD then "jmp"
    else "call"
  else if opcode ≤ 0x95FF then
    if lowByte == 0x00 then "com"
    else if lowByte == 0x01 then "neg"
    else if lowByte == 0x02 then "swap"
    else if lowByte == 0x03 then "inc"
    else if lowByte == 0x04 then "reserved"
    else if lowByte == 0x05 then "asr"
    else if lowByte == 0x06 then "lsr"
    else if lowByte == 0x07 then "ror"
    else if lowByte == 0x08 then
      if highByte == 0x0 then "ret"
      else if highByte == 0x1 then "reti"
      else if highByte == 0x8 then "sleep"
      else if highByte == 0x9 then "break_"
      else if highByte == 0xA then "wdr"
      else if highByte == 0xC then "lpm"
      else if 0xE ≤ highByte ∧ highByte ≤ 0xF then "spm"
      else "reserved"
    else if lowByte == 0x09 then
      if highByte == 0x0 then "icall" else "reserved"
    else if lowByte == 0x0A then "dec"
    else if lowByte == 0x0B then "reserved"
    else if lowByte ≤ 0xD then "jmp"
    else "call"
  else if opcode ≤ 0x96FF then "adiw"
  else if opcode ≤ 0x97FF then "sbiw"
  else if opcode ≤ 0x98FF then "cbi"
  else if opcode ≤ 0x99FF then "sbic"
  else if opcode ≤ 0x9AFF then "sbi"
  else if opcode ≤ 0x9BFF then "sbis"
  else if opcode ≤ 0x9FFF then "mul"
  else if opcode ≤ 0xA1FF then "ldd"
  else if opcode ≤ 0xA3FF then "std"
  else if opcode ≤ 0xA5FF then "ldd"
  else if opcode ≤ 0xA7FF then "std"
  else if opcode ≤ 0xA9FF then "ldd"
  else if opcode ≤ 0xABFF then "std"
  else if opcode ≤ 0xADFF then "ldd"
  else if opcode ≤ 0xAFFF then "std"
  else if opcode ≤ 0xB7FF then "in_"
  else if opcode ≤ 0xBFFF then "out"
  else if opcode ≤ 0xCFFF then "rjmp"
  else if opcode ≤ 0xDFFF then "rcall"
  else if opcode ≤ 0xEFFF then "ldi"
  else if opcode ≤ 0xF3FF then
    if lowByte == 0x0 then "brcs"
    else if lowByte == 0x1 then "breq"
    else if lowByte == 0x2 then "brmi"
    else if lowByte == 0x3 then "brvs"
    else if lowByte == 0x4 then "brlt"
    else if lowByte == 0x5 then "brhs"
    else if lowByte == 0x6 then "brts"
    else if lowByte == 0x7 then "brie"
    else if lowByte == 0x8 then "brcs"
    else if lowByte == 0x9 then "breq"
    else if lowByte == 0xA then "brmi"
    else if lowByte == 0xB then "brvs"
    else if lowByte == 0xC then "brlt"
    else if lowByte == 0xD then "brhs"
    else if lowByte == 0xE then "brts"
    else "brie"
  else if opcode ≤ 0xF7FF then
    if lowByte == 0x0 then "brcc"
    else if lowByte == 0x1 then "brne"
    else if lowByte == 0x2 then "brpl"
    else if lowByte == 0x3 then "brvc"
    else if lowByte == 0x4 then "brge"
    else if lowByte == 0x5 then "brhc"
    else if lowByte == 0x6 then "brtc"
    else if lowByte == 0x7 then "brid"
    else if lowByte == 0x8 then "brcc"
    else if lowByte == 0x9 then "brne"
    else if lowByte == 0xA then "brpl"
    else if lowByte == 0xB then "brvc"
    else if lowByte == 0xC then "brge"
    else if lowByte == 0xD then "brhc"
    else if lowByte == 0xE then "brtc"
    else "brid"
  else if opcode ≤ 0xF9FF then "bld"
  else if opcode ≤ 0xFBFF then "bst"
  else if opcode ≤ 0xFDFF then "sbrc"
  else "sbrs"

/-! ## Disassembler (`src/disassembler.rs`) -/

/-- One row of the listing (`Instruction`); the `operands` string is not
modelled (no claim depends on it). -/
structure Instruction where
  address : Nat
  opcode : Nat
  instruction : String
deriving Repr, DecidableEq

/-- The `instruction` string built by the big `match` inside
`Disassembler::disassemble` for one opcode word.  Transcribed arm by arm; note
that the `0x8000..=0x81FF` arm performs three consecutive `push_str` calls, so
its instruction string is the concatenation `"ld_z" ++ "ld_y" ++ "ldd"`, and
that the `0x9598` arm writes `"break"` while `step` calls the handler
`break_`. -/
def disasm_instruction (opcode : Nat) : String :=
  let lowByte := opcode &&& 0xF
  let highByte := (opcode >>> 4) &&& 0xF
  if opcode ≤ 0x00FF then
    if opcode &&& 0xFF == 0x00 then "nop" else "[R]"
  else if opcode ≤ 0x01FF then "movw"
  else if opcode ≤ 0x02FF then "muls"
  else if opcode ≤ 0x03FF then
    if lowByte ≤ 0x7 then
      if highByte ≤ 0x7 then "mulsu" else "fmuls"
    else
      if highByte ≤ 0x7 then "fmul" else "fmulsu"
  else if opcode ≤ 0x07FF then "cpc"
  else if opcode ≤ 0x0BFF then "sbc"
  else if opcode ≤ 0x0FFF then "add"
  else if opcode ≤ 0x13FF then "cpse"
  else if opcode ≤ 0x17FF then "cp"
  else if opcode ≤ 0x1BFF then "sub"
  else if opcode ≤ 0x1FFF then "adc"
  else if opcode ≤ 0x23FF then "and"
  else if opcode ≤ 0x27FF then "eor"
  else if opcode ≤ 0x2BFF then "or"
  else if opcode ≤ 0x2FFF then "mov"
  else if opcode ≤ 0x3FFF then "cpi"
  else if opcode ≤ 0x4FFF then "sbci"
  else if opcode ≤ 0x5FFF then "subi"
  else if opcode ≤ 0x6FFF then "ori"
  else if opcode ≤ 0x7FFF then "andi"
  else if opcode ≤ 0x81FF then "ld_z" ++ "ld_y" ++ "ldd"
  else if opcode ≤ 0x83FF then "std"
  else if opcode ≤ 0x85FF then "ldd"
  else if opcode ≤ 0x87FF then "std"
  else if opcode ≤ 0x89FF then "ldd"
  else if opcode ≤ 0x8BFF then "std"
  else if opcode ≤ 0x8DFF then "ldd"
  else if opcode ≤ 0x8FFF then "std"
  else if opcode ≤ 0x91FF then
    if lowByte == 0x0 then "lds"
    else if lowByte ≤ 0x2 then "ld_z"
    else if lowByte == 0x3 then "[R]"
    else if lowByte ≤ 0x5 then "lpm"
    else if lowByte ≤ 0x8 then "[R]"
    else if lowByte ≤ 0xA then "ld_y"
    else if lowByte == 0xB then "[R]"
    else if lowByte ≤ 0xE then "ld_x"
    else "pop"
  else if opcode ≤ 0x93FF then
    if lowByte == 0x0 then "sts"
    else if lowByte ≤ 0x2 then "st_z"
    else if lowByte ≤ 0x8 then "[R]"
    else if lowByte ≤ 0xA then "st_y"
    else if lowByte == 0xB then "[R]"
    else if lowByte ≤ 0xE then "st_x"
    else "push"
  else if opcode ≤ 0x94FF then
    if lowByte == 0x0 then "com"
    else if lowByte == 0x1 then "neg"
    else if lowByte == 0x2 then "swap"
    else if lowByte == 0x3 then "inc"
    else if lowByte == 0x4 then "[R]"
    else if lowByte == 0x5 then "asr"
    else if lowByte == 0x6 then "lsr"
    else if lowByte == 0x7 then "ror"
    else if lowByte == 0x8 then
      if highByte == 0x0 then "sec"
      else if highByte == 0x1 then "sez"
      else if highByte == 0x2 then "sen"
      else if highByte == 0x3 then "sev"
      else if highByte == 0x4 then "ses"
      else if highByte == 0x5 then "seh"
      else if highByte == 0x6 then "set"
      else if highByte == 0x7 then "sei"
      else if highByte == 0x8 then "clc"
      else if highByte == 0x9 then "clz"
      else if highByte == 0xA then "cln"
      else if highByte == 0xB then "clv"
      else if highByte == 0xC then "cls"
      else if highByte == 0xD then "clh"
      else if highByte == 0xE then "clt"
      else "cli"
    else if lowByte == 0x9 then
      if highByte == 0x0 then "ijmp" else "[R]"
    else if lowByte == 0xA then "dec"
    else if lowByte == 0xB then "des"
    else if lowByte ≤ 0xD then "jmp"
    else "call"
  else if opcode ≤ 0x95FF then
    if lowByte == 0x00 then "com"
    else if lowByte == 0x01 then "neg"
    else if lowByte == 0x02 then "swap"
    else if lowByte == 0x03 then "inc"
    else if lowByte == 0x04 then "[R]"
    else if lowByte == 0x05 then "asr"
    else if lowByte == 0x06 then "lsr"
    else if lowByte == 0x07 then "ror"
    else if lowByte == 0x08 then
      if highByte == 0x0 then "ret"
      else if highByte == 0x1 then "reti"
      else if highByte == 0x8 then "sleep"
      else if highByte == 0x9 then "break"
      else if highByte == 0xA then "wdr"
      else if highByte == 0xC then "lpm"
      else if 0xE ≤ highByte ∧ highByte ≤ 0xF then "spm"
      else "[R]"
    else if lowByte == 0x09 then
      if highByte == 0x0 then "icall" else "[R]"
    else if lowByte == 0x0A then "dec"
    else if lowByte == 0x0B then "[R]"
    else if lowByte ≤ 0xD then "jmp"
    else "call"
  else if opcode ≤ 0x96FF then "adiw"
  else if opcode ≤ 0x97FF then "sbiw"
  else if opcode ≤ 0x98FF then "cbi"
  else if opcode ≤ 0x99FF then "sbic"
  else if opcode ≤ 0x9AFF then "sbi"
  else if opcode ≤ 0x9BFF then "sbis"
  else if opcode ≤ 0x9FFF then "mul"
  else if opcode ≤ 0xA1FF then "ldd"
  else if opcode ≤ 0xA3FF then "std"
  else if opcode ≤ 0xA5FF then "ldd"
  else if opcode ≤ 0xA7FF then "std"
  else if opcode ≤ 0xA9FF then "ldd"
  else if opcode ≤ 0xABFF then "std"
  else if opcode ≤ 0xADFF then "ldd"
  else if opcode ≤ 0xAFFF then "std"
  else if opcode ≤ 0xB7FF then "in_"
  else if opcode ≤ 0xBFFF then "out"
  else if opcode ≤ 0xCFFF then "rjmp"
  else if opcode ≤ 0xDFFF then "rcall"
  else if opcode ≤ 0xEFFF then "ldi"
  else if opcode ≤ 0xF3FF then
    if lowByte == 0x0 then "brcs"
    else if lowByte == 0x1 then "breq"
    else if lowByte == 0x2 then "brmi"
    else if lowByte == 0x3 then "brvs"
    else if lowByte == 0x4 then "brlt"
    else if lowByte == 0x5 then "brhs"
    else if lowByte == 0x6 then "brts"
    else if lowByte == 0x7 then "brie"
    else if lowByte == 0x8 then "brcs"
    else if lowByte == 0x9 then "breq"
    else if lowByte == 0xA then "brmi"
    else if lowByte == 0xB then "brvs"
    else if lowByte == 0xC then "brlt"
    else if lowByte == 0xD then "brhs"
    else if lowByte == 0xE then "brts"
    else "brie"
  else if opcode ≤ 0xF7FF then
    if lowByte == 0x0 then "brcc"
    else if lowByte == 0x1 then "brne"
    else if lowByte == 0x2 then "brpl"
    else if lowByte == 0x3 then "brvc"
    else if lowByte == 0x4 then "brge"
    else if lowByte == 0x5 then "brhc"
    else if lowByte == 0x6 then "brtc"
    else if lowByte == 0x7 then "brid"
    else if lowByte == 0x8 then "brcc"
    else if lowByte == 0x9 then "brne"
    else if lowByte == 0xA then "brpl"
    else if lowByte == 0xB then "brvc"
    else if lowByte == 0xC then "brge"
    else if lowByte == 0xD then "brhc"
    else if lowByte == 0xE then "brtc"
    else "brid"
  else if opcode ≤ 0xF9FF then "bld"
  else if opcode ≤ 0xFBFF then "bst"
  else if opcode ≤ 0xFDFF then "sbrc"
  else "sbrs"

/-- `Disassembler::disassemble`: walk `[start_address, end_address)` through
the application flash and record, per address, the opcode and its instruction
string (an ordered map, modelled as the address-ordered list of rows). -/
def disassemble (program : ApplicationFlash) (start_address end_address : Nat) :
    List Instruction :=
  (List.range (end_address - start_address)).map fun i =>
    let address := start_address + i
    let opcode := program.read address
    ⟨address, opcode, disasm_instruction opcode⟩

/-! ## Flashing (`src/system.rs`) -/

/-- `System::flash_from_vec` (the word-list flasher): word `index` of the
program is written to `PROGRAM_START + index`; the constant `PROGRAM_START` is
declared in a module revision not present in the sources, so it is kept as the
parameter `program_start`.  Returns the updated application flash together
with the listing produced by the subsequent `disassemble` call over
`[PROGRAM_START, program_length)`. -/
def flash_from_vec (program_start : Nat) (flash : ApplicationFlash)
    (program : List Nat) : ApplicationFlash × List Instruction :=
  let program_length := program.length
  let flash := program.enum.foldl
    (fun (f : ApplicationFlash) iw => f.write (program_start + iw.1) iw.2) flash
  (flash, disassemble flash program_start program_length)

/-- `char::to_digit(16).unwrap()`, defined on the hexadecimal digits the
regex-captured data records contain (on a non-hex character `to_digit`
returns `None` and the `unwrap` panics; no modelled claim exercises that
case). -/
def to_digit16 (c : Char) : Nat :=
  if '0' ≤ c ∧ c ≤ '9' then c.toNat - 48
  else if 'a' ≤ c ∧ c ≤ 'f' then c.toNat - 87
  else if 'A' ≤ c ∧ c ≤ 'F' then c.toNat - 55
  else 0

/-- The word-decoding step of `System::flash_from_hex_file` for one data
record: for each four-character group `c[4x] c[4x+1] c[4x+2] c[4x+3]` the
stored word is `(a << 12) | (b << 8) | (c << 4) | d` with
`a = c[4x+2], b = c[4x+3], c = c[4x], d = c[4x+1]` read as hex digits. -/
def hexRecordWords (chars : List Char) : List Nat :=
  (List.range (chars.length / 4)).map fun x =>
    let index := x * 4
    let a := to_digit16 (chars.getD (index + 2) '0')
    let b := to_digit16 (chars.getD (index + 3) '0')
    let c := to_digit16 (chars.getD index '0')
    let d := to_digit16 (chars.getD (index + 1) '0')
    ((a <<< 12) ||| (b <<< 8)) ||| ((c <<< 4) ||| d)

/-- The write loop of `System::flash_from_hex_file`, applied to the words
decoded from the file's data records: `program_length` starts at `0` and is
incremented *before* each write, so the `i`-th word is written to
`PROGRAM_START + 1 + i`.  Returns the flash and the final `program_length`,
after which the source calls
`disassemble(app_flash, PROGRAM_START, program_length)`. -/
def flash_from_hex_words (program_start : Nat) (flash : ApplicationFlash)
    (words : List Nat) : ApplicationFlash × Nat :=
  words.foldl
    (fun (acc : ApplicationFlash × Nat) word =>
      let program_length := acc.2 + 1
      (acc.1.write (program_start + program_length) word, program_length))
    (flash, 0)

/-! ## Concrete machine states used by the claim theorems -/

/-- A freshly initialised CPU (`Cpu::init`) whose application flash holds the
given program words starting at address 0, the way the unit tests flash a
program (every cell beyond the listed words reads as 0, like the zeroed
flash vector). -/
def testCpu (program : List Nat) : Cpu :=
  { system := ⟨⟨⟨program⟩, ⟨[]⟩⟩⟩
    sram := Sram.default
    sp := 0
    status := Sreg.default
    pc := 0
    cycles := 0
    opcode := 0
    log := [] }

/-! ## Claim theorems -/

/-- Claim C1.  The claim states the AVR flag equations for ADD over the
operand and result bytes.  The code diverges: executing `ADD r0, r1` with
`R0 = 0x80`, `R1 = 0` produces the result byte `0x80` (bit 7 set), yet every
flag comes out `false` — in particular `N` and `S`, which the claim requires
to be `true` — because `bits_u8` yields masked bits (`0` or `2^k`) that the
handler compares with `== 1`, and because `rd_bits`/`rr_bits` are computed
from the register *indices* rather than the register values. -/
theorem C1_add_flag_divergence :
    Except.map
      (fun c => (c.reg 0, c.status.H, c.status.V, c.status.N, c.status.S,
        c.status.Z, c.status.C, c.pc, c.cycles))
      (step ((testCpu [0x0C01]).setReg 0 0x80))
      = .ok (0x80, false, false, false, false, false, false, 1, 1) := by
  rfl

/-- Claim C3.  The claim states that the 1-cycle one-word instructions
(`mov`, `ldi`, `cpi`, `in`, `out`, `push`, `pop`) advance `pc` and `cycles` by
exactly 1.  In the code all seven handlers have empty bodies, so a step on any
of them leaves `pc = 0` and `cycles = 0`. -/
theorem C3_one_cycle_stub_divergence :
    (Except.map (fun c => (c.pc, c.cycles)) (step (testCpu [0x2C00])) = .ok (0, 0))
    ∧ (Except.map (fun c => (c.pc, c.cycles)) (step (testCpu [0xE000])) = .ok (0, 0))
    ∧ (Except.map (fun c => (c.pc, c.cycles)) (step (testCpu [0x3000])) = .ok (0, 0))
    ∧ (Except.map (fun c => (c.pc, c.cycles)) (step (testCpu [0xB000])) = .ok (0, 0))
    ∧ (Except.map (fun c => (c.pc, c.cycles)) (step (testCpu [0xB800])) = .ok (0, 0))
    ∧ (Except.map (fun c => (c.pc, c.cycles)) (step (testCpu [0x920F])) = .ok (0, 0))
    ∧ (Except.map (fun c => (c.pc, c.cycles)) (step (testCpu [0x900F])) = .ok (0, 0)) := by
  exact ⟨rfl, rfl, rfl, rfl, rfl, rfl, rfl⟩

/-- Claim C4.  Stepping `MUL` (`0x9C00`) with `R0 = 255` does put the product
`0xFE01` into `R1:R0` as the claim says, but `C` comes out `false` even though
bit 15 of the product is set (component 15 of `bits_u16` is truncated to 0 by
its `as u8` cast), only 1 cycle is added instead of the claimed 2, and with a
zero product (`R0 = 0`) `Z` comes out `false` instead of the claimed `true`
(the handler tests `result == 1`, not `result == 0`). -/
theorem C4_mul_divergence :
    (Except.map (fun c => (c.reg 0, c.reg 1, c.status.C, c.status.Z, c.cycles))
      (step ((testCpu [0x9C00]).setReg 0 255))
      = .ok (0x01, 0xFE, false, false, 1))
    ∧ (Except.map (fun c => c.status.Z) (step (testCpu [0x9C00])) = .ok false) := by
  exact ⟨rfl, rfl⟩

/-- Claim C5.  A read of SRAM address `0x0900` does fail fatally with an error
naming the SRAM region and the offending address; a write to the same address
also fails fatally, but through the unconditional `todo!()` panic, whose
message names neither the region nor the address. -/
theorem C5_sram_fault_messages :
    Sram.read Sram.default 0x0900
      = .error ("SRAM does not contain address 0x" ++ rustHex 0x0900)
    ∧ rustHex 0x0900 = "900"
    ∧ Sram.write Sram.default 0x0900 0 = .error "not yet implemented" := by
  exact ⟨rfl, rfl, rfl⟩

/-- Claim C6.  The claim states that 8/16-bit arithmetic is wrapping and never
aborts.  The code uses Rust's default overflow-checked operators in several
handlers: `SUBI r19, 0x15` with `R19 = 0` underflows and panics, `ADD r0, r1`
with `R0 = 255`, `R1 = 1` overflows and panics, and `INC r9` with `R9 = 255`
overflows and panics. -/
theorem C6_checked_arithmetic_aborts :
    step (testCpu [0x5135]) = .error "attempt to subtract with overflow"
    ∧ step (((testCpu [0x0C01]).setReg 0 255).setReg 1 1)
      = .error "attempt to add with overflow"
    ∧ step ((testCpu [0x9493]).setReg 9 255)
      = .error "attempt to add with overflow" := by
  exact ⟨rfl, rfl, rfl⟩

/-- Claim C7.  Decoding the data-record group `"000C"` yields the word
`0x0C00`; flashing that one-word program through the HEX path stores it at
`PROGRAM_START + 1` (here `program_start = 0`, so address 1), whereas
`flash_from_vec` stores the same program at `PROGRAM_START + 0`; and the
subsequent `disassemble` call covers `[PROGRAM_START, program_length) = [0, 1)`,
which contains only the untouched word 0 (listed as `nop`), not the flashed
word. -/
theorem C7_hex_flash_offset :
    hexRecordWords "000C".data = [0x0C00]
    ∧ (flash_from_hex_words 0 ⟨List.replicate 8 0⟩ [0x0C00]).1.data
      = [0, 0x0C00, 0, 0, 0, 0, 0, 0]
    ∧ (flash_from_hex_words 0 ⟨List.replicate 8 0⟩ [0x0C00]).2 = 1
    ∧ (flash_from_vec 0 ⟨List.replicate 8 0⟩ [0x0C00]).1.data
      = [0x0C00, 0, 0, 0, 0, 0, 0, 0]
    ∧ (disassemble (flash_from_hex_words 0 ⟨List.replicate 8 0⟩ [0x0C00]).1 0 1).map
        Instruction.instruction = ["nop"] := by
  exact ⟨rfl, rfl, rfl, rfl, rfl⟩

/-- Claim C8.  Stepping the reserved encoding `0x0001` flashed at address 0 is
non-fatal: the step succeeds and the post-state differs from the pre-state
only in the latched `opcode`, `pc = 1`, `cycles = 1` and the appended
diagnostic line — so registers, SREG, SP and memory are unchanged — and the
disassembler entry at address 0 is `[R]`. -/
theorem C8_reserved_nonfatal :
    step (testCpu [0x0001])
      = .ok { testCpu [0x0001] with
          opcode := 0x0001
          pc := 1
          cycles := 1
          log := ["Reserved opcode: 1"] }
    ∧ (testCpu [0x0001]).log = []
    ∧ disassemble ⟨[0x0001]⟩ 0 1 = [⟨0, 0x0001, "[R]"⟩] := by
  exact ⟨rfl, rfl, rfl⟩

/-- Claim C9.  `set_byte` is a left inverse of `byte` on every SREG state:
round-tripping through the packed byte restores every flag. -/
theorem C9_sreg_roundtrip (s : Sreg) : s.set_byte s.byte = s := by
  rcases s with ⟨c, z, n, v, sf, h, t, i⟩
  cases c <;> cases z <;> cases n <;> cases v <;> cases sf <;> cases h <;>
    cases t <;> cases i <;> rfl

/-- Claim C10.  Every write to SRAM through the `Memory` interface hits the
unconditional `todo!()` panic, for every address (in range or not) and every
data value; no write ever stores a byte. -/
theorem C10_sram_write_aborts (s : Sram) (address data : Nat) :
    Sram.write s address data = .error "not yet implemented" := rfl

/-- Claim C2, counterexample.  At opcode `0x8000` the execution core
dispatches to the `ldd` handler while the disassembler records the mnemonic
`"ld_zld_yldd"` (its `0x8000..=0x81FF` arm pushes three mnemonics into the
same slot), so the recorded mnemonic is not the name of the invoked
handler. -/
theorem C2_decode_counterexample :
    stepHandlerName 0x8000 = "ldd"
    ∧ disasm_instruction 0x8000 = "ld_zld_yldd"
    ∧ disasm_instruction 0x8000 ≠ stepHandlerName 0x8000 := by
  refine ⟨rfl, rfl, ?_⟩
  decide

set_option linter.unreachableTactic false in
set_option linter.unusedTactic false in
set_option maxHeartbeats 1000000 in
/-- Claim C2, amended.  For every opcode word, the disassembler records `[R]`
exactly when `step` dispatches to the `reserved` handler; and away from the
two divergent spots — the `0x8000..=0x81FF` arm (triple `push_str`) and the
word whose handler is `break_` (the disassembler writes `"break"` for it) —
the recorded mnemonic is exactly the name of the handler `step` invokes. -/
theorem C2_amended_decode_agreement (op : Nat) :
    ((disasm_instruction op = "[R]") ↔ stepHandlerName op = "reserved")
    ∧ (¬ (0x8000 ≤ op ∧ op ≤ 0x81FF) → stepHandlerName op ≠ "break_" →
        stepHandlerName op ≠ "reserved" →
        disasm_instruction op = stepHandlerName op) := by
  simp only [disasm_instruction, stepHandlerName]
  by_cases h1 : op ≤ 255
  · first | rw [if_pos h1, if_pos h1] | rw [if_pos h1]
    by_cases h2 : (op &&& 255 == 0) = true
    · first | rw [if_pos h2, if_pos h2] | rw [if_pos h2]
      exact ⟨by decide, fun _ _ _ => rfl⟩
    · first | rw [if_neg h2, if_neg h2] | rw [if_neg h2]
      exact ⟨by decide, fun _ _ h => absurd rfl h⟩
  · first | rw [if_neg h1, if_neg h1] | rw [if_neg h1]
    by_cases h3 : op ≤ 511
    · first | rw [if_pos h3, if_pos h3] | rw [if_pos h3]
      exact ⟨by decide, fun _ _ _ => rfl⟩
    · first | rw [if_neg h3, if_neg h3] | rw [if_neg h3]
      by_cases h4 : op ≤ 767
      · first | rw [if_pos h4, if_pos h4] | rw [if_pos h4]
        exact ⟨by decide, fun _ _ _ => rfl⟩
      · first | rw [if_neg h4, if_neg h4] | rw [if_neg h4]
        by_cases h5 : op ≤ 1023
        · first | rw [if_pos h5, if_pos h5] | rw [if_pos h5]
          by_cases h6 : op &&& 15 ≤ 7
          · first | rw [if_pos h6, if_pos h6] | rw [if_pos h6]
            by_cases h7 : op >>> 4 &&& 15 ≤ 7
            · first | rw [if_pos h7, if_pos h7] | rw [if_pos h7]
              exact ⟨by decide, fun _ _ _ => rfl⟩
            · first | rw [if_neg h7, if_neg h7] | rw [if_neg h7]
              exact ⟨by decide, fun _ _ _ => rfl⟩
          · first | rw [if_neg h6, if_neg h6] | rw [if_neg h6]
            by_cases h8 : op >>> 4 &&& 15 ≤ 7
            · first | rw [if_pos h8, if_pos h8] | rw [if_pos h8]
              exact ⟨by decide, fun _ _ _ => rfl⟩
            · first | rw [if_neg h8, if_neg h8] | rw [if_neg h8]
              exact ⟨by decide, fun _ _ _ => rfl⟩
        · first | rw [if_neg h5, if_neg h5] | rw [if_neg h5]
          by_cases h9 : op ≤ 2047
          · first | rw [if_pos h9, if_pos h9] | rw [if_pos h9]
            exact ⟨by decide, fun _ _ _ => rfl⟩
          · first | rw [if_neg h9, if_neg h9] | rw [if_neg h9]
            by_cases h10 : op ≤ 3071
            · first | rw [if_pos h10, if_pos h10] | rw [if_pos h10]
              exact ⟨by decide, fun _ _ _ => rfl⟩
            · first | rw [if_neg h10, if_neg h10] | rw [if_neg h10]
              by_cases h11 : op ≤ 4095
              · first | rw [if_pos h11, if_pos h11] | rw [if_pos h11]
                exact ⟨by decide, fun _ _ _ => rfl⟩
              · first | rw [if_neg h11, if_neg h11] | rw [if_neg h11]
                by_cases h12 : op ≤ 5119
                · first | rw [if_pos h12, if_pos h12] | rw [if_pos h12]
                  exact ⟨by decide, fun _ _ _ => rfl⟩
                · first | rw [if_neg h12, if_neg h12] | rw [if_neg h12]
                  by_cases h13 : op ≤ 6143
                  · first | rw [if_pos h13, if_pos h13] | rw [if_pos h13]
                    exact ⟨by decide, fun _ _ _ => rfl⟩
                  · first | rw [if_neg h13, if_neg h13] | rw [if_neg h13]
                    by_cases h14 : op ≤ 7167
                    · first | rw [if_pos h14, if_pos h14] | rw [if_pos h14]
                      exact ⟨by decide, fun _ _ _ => rfl⟩
                    · first | rw [if_neg h14, if_neg h14] | rw [if_neg h14]
                      by_cases h15 : op ≤ 8191
                      · first | rw [if_pos h15, if_pos h15] | rw [if_pos h15]
                        exact ⟨by decide, fun _ _ _ => rfl⟩
                      · first | rw [if_neg h15, if_neg h15] | rw [if_neg h15]
                        by_cases h16 : op ≤ 9215
                        · first | rw [if_pos h16, if_pos h16] | rw [if_pos h16]
                          exact ⟨by decide, fun _ _ _ => rfl⟩
                        · first | rw [if_neg h16, if_neg h16] | rw [if_neg h16]
                          by_cases h17 : op ≤ 10239
                          · first | rw [if_pos h17, if_pos h17] | rw [if_pos h17]
                            exact ⟨by decide, fun _ _ _ => rfl⟩
                          · first | rw [if_neg h17, if_neg h17] | rw [if_neg h17]
                            by_cases h18 : op ≤ 11263
                            · first | rw [if_pos h18, if_pos h18] | rw [if_pos h18]
                              exact ⟨by decide, fun _ _ _ => rfl⟩
                            · first | rw [if_neg h18, if_neg h18] | rw [if_neg h18]
                              by_cases h19 : op ≤ 12287
                              · first | rw [if_pos h19, if_pos h19] | rw [if_pos h19]
                                exact ⟨by decide, fun _ _ _ => rfl⟩
                              · first | rw [if_neg h19, if_neg h19] | rw [if_neg h19]
                                by_cases h20 : op ≤ 16383
                                · first | rw [if_pos h20, if_pos h20] | rw [if_pos h20]
                                  exact ⟨by decide, fun _ _ _ => rfl⟩
                                · first | rw [if_neg h20, if_neg h20] | rw [if_neg h20]
                                  by_cases h21 : op ≤ 20479
                                  · first | rw [if_pos h21, if_pos h21] | rw [if_pos h21]
                                    exact ⟨by decide, fun _ _ _ => rfl⟩
                                  · first | rw [if_neg h21, if_neg h21] | rw [if_neg h21]
                                    by_cases h22 : op ≤ 24575
                                    · first | rw [if_pos h22, if_pos h22] | rw [if_pos h22]
                                      exact ⟨by decide, fun _ _ _ => rfl⟩
                                    · first | rw [if_neg h22, if_neg h22] | rw [if_neg h22]
                                      by_cases h23 : op ≤ 28671
                                      · first | rw [if_pos h23, if_pos h23] | rw [if_pos h23]
                                        exact ⟨by decide, fun _ _ _ => rfl⟩
                                      · first | rw [if_neg h23, if_neg h23] | rw [if_neg h23]
                                        by_cases h24 : op ≤ 32767
                                        · first | rw [if_pos h24, if_pos h24] | rw [if_pos h24]
                                          exact ⟨by decide, fun _ _ _ => rfl⟩
                                        · first | rw [if_neg h24, if_neg h24] | rw [if_neg h24]
                                          by_cases h25 : op ≤ 33279
                                          · first | rw [if_pos h25, if_pos h25] | rw [if_pos h25]
                                            exact ⟨by decide, fun h _ _ => absurd (by omega) h⟩
                                          · first | rw [if_neg h25, if_neg h25] | rw [if_neg h25]
                                            by_cases h26 : op ≤ 33791
                                            · first | rw [if_pos h26, if_pos h26] | rw [if_pos h26]
                                              exact ⟨by decide, fun _ _ _ => rfl⟩
                                            · first | rw [if_neg h26, if_neg h26] | rw [if_neg h26]
                                              by_cases h27 : op ≤ 34303
                                              · first | rw [if_pos h27, if_pos h27] | rw [if_pos h27]
                                                exact ⟨by decide, fun _ _ _ => rfl⟩
                                              · first | rw [if_neg h27, if_neg h27] | rw [if_neg h27]
                                                by_cases h28 : op ≤ 34815
                                                · first | rw [if_pos h28, if_pos h28] | rw [if_pos h28]
                                                  exact ⟨by decide, fun _ _ _ => rfl⟩
                                                · first | rw [if_neg h28, if_neg h28] | rw [if_neg h28]
                                                  by_cases h29 : op ≤ 35327
                                                  · first | rw [if_pos h29, if_pos h29] | rw [if_pos h29]
                                                    exact ⟨by decide, fun _ _ _ => rfl⟩
                                                  · first | rw [if_neg h29, if_neg h29] | rw [if_neg h29]
                                                    by_cases h30 : op ≤ 35839
                                                    · first | rw [if_pos h30, if_pos h30] | rw [if_pos h30]
                                                      exact ⟨by decide, fun _ _ _ => rfl⟩
                                                    · first | rw [if_neg h30, if_neg h30] | rw [if_neg h30]
                                                      by_cases h31 : op ≤ 36351
                                                      · first | rw [if_pos h31, if_pos h31] | rw [if_pos h31]
                                                        exact ⟨by decide, fun _ _ _ => rfl⟩
                                                      · first | rw [if_neg h31, if_neg h31] | rw [if_neg h31]
                                                        by_cases h32 : op ≤ 36863
                                                        · first | rw [if_pos h32, if_pos h32] | rw [if_pos h32]
                                                          exact ⟨by decide, fun _ _ _ => rfl⟩
                                                        · first | rw [if_neg h32, if_neg h32] | rw [if_neg h32]
                                                          by_cases h33 : op ≤ 37375
                                                          · first | rw [if_pos h33, if_pos h33] | rw [if_pos h33]
                                                            by_cases h34 : (op &&& 15 == 0) = true
                                                            · first | rw [if_pos h34, if_pos h34] | rw [if_pos h34]
                                                              exact ⟨by decide, fun _ _ _ => rfl⟩
                                                            · first | rw [if_neg h34, if_neg h34] | rw [if_neg h34]
                                                              by_cases h35 : op &&& 15 ≤ 2
                                                              · first | rw [if_pos h35, if_pos h35] | rw [if_pos h35]
                                                                exact ⟨by decide, fun _ _ _ => rfl⟩
                                                              · first | rw [if_neg h35, if_neg h35] | rw [if_neg h35]
                                                                by_cases h36 : (op &&& 15 == 3) = true
                                                                · first | rw [if_pos h36, if_pos h36] | rw [if_pos h36]
                                                                  exact ⟨by decide, fun _ _ h => absurd rfl h⟩
                                                                · first | rw [if_neg h36, if_neg h36] | rw [if_neg h36]
                                                                  by_cases h37 : op &&& 15 ≤ 5
                                                                  · first | rw [if_pos h37, if_pos h37] | rw [if_pos h37]
                                                                    exact ⟨by decide, fun _ _ _ => rfl⟩
                                                                  · first | rw [if_neg h37, if_neg h37] | rw [if_neg h37]
                                                                    by_cases h38 : op &&& 15 ≤ 8
                                                                    · first | rw [if_pos h38, if_pos h38] | rw [if_pos h38]
                                                                      exact ⟨by decide, fun _ _ h => absurd rfl h⟩
                                                                    · first | rw [if_neg h38, if_neg h38] | rw [if_neg h38]
                                                                      by_cases h39 : op &&& 15 ≤ 10
                                                                      · first | rw [if_pos h39, if_pos h39] | rw [if_pos h39]
                                                                        exact ⟨by decide, fun _ _ _ => rfl⟩
                                                                      · first | rw [if_neg h39, if_neg h39] | rw [if_neg h39]
                                                                        by_cases h40 : (op &&& 15 == 11) = true
                                                                        · first | rw [if_pos h40, if_pos h40] | rw [if_pos h40]
                                                                          exact ⟨by decide, fun _ _ h => absurd rfl h⟩
                                                                        · first | rw [if_neg h40, if_neg h40] | rw [if_neg h40]
                                                                          by_cases h41 : op &&& 15 ≤ 14
                                                                          · first | rw [if_pos h41, if_pos h41] | rw [if_pos h41]
                                                                            exact ⟨by decide, fun _ _ _ => rfl⟩
                                                                          · first | rw [if_neg h41, if_neg h41] | rw [if_neg h41]
                                                                            exact ⟨by decide, fun _ _ _ => rfl⟩
                                                          · first | rw [if_neg h33, if_neg h33] | rw [if_neg h33]
                                                            by_cases h42 : op ≤ 37887
                                                            · first | rw [if_pos h42, if_pos h42] | rw [if_pos h42]
                                                              by_cases h43 : (op &&& 15 == 0) = true
                                                              · first | rw [if_pos h43, if_pos h43] | rw [if_pos h43]
                                                                exact ⟨by decide, fun _ _ _ => rfl⟩
                                                              · first | rw [if_neg h43, if_neg h43] | rw [if_neg h43]
                                                                by_cases h44 : op &&& 15 ≤ 2
                                                                · first | rw [if_pos h44, if_pos h44] | rw [if_pos h44]
                                                                  exact ⟨by decide, fun _ _ _ => rfl⟩
                                                                · first | rw [if_neg h44, if_neg h44] | rw [if_neg h44]
                                                                  by_cases h45 : op &&& 15 ≤ 8
                                                                  · first | rw [if_pos h45, if_pos h45] | rw [if_pos h45]
                                                                    exact ⟨by decide, fun _ _ h => absurd rfl h⟩
                                                                  · first | rw [if_neg h45, if_neg h45] | rw [if_neg h45]
                                                                    by_cases h46 : op &&& 15 ≤ 10
                                                                    · first | rw [if_pos h46, if_pos h46] | rw [if_pos h46]
                                                                      exact ⟨by decide, fun _ _ _ => rfl⟩
                                                                    · first | rw [if_neg h46, if_neg h46] | rw [if_neg h46]
                                                                      by_cases h47 : (op &&& 15 == 11) = true
                                                                      · first | rw [if_pos h47, if_pos h47] | rw [if_pos h47]
                                                                        exact ⟨by decide, fun _ _ h => absurd rfl h⟩
                                                                      · first | rw [if_neg h47, if_neg h47] | rw [if_neg h47]
                                                                        by_cases h48 : op &&& 15 ≤ 14
                                                                        · first | rw [if_pos h48, if_pos h48] | rw [if_pos h48]
                                                                          exact ⟨by decide, fun _ _ _ => rfl⟩
                                                                        · first | rw [if_neg h48, if_neg h48] | rw [if_neg h48]
                                                                          exact ⟨by decide, fun _ _ _ => rfl⟩
                                                            · first | rw [if_neg h42, if_neg h42] | rw [if_neg h42]
                                                              by_cases h49 : op ≤ 38143
                                                              · first | rw [if_pos h49, if_pos h49] | rw [if_pos h49]
                                                                by_cases h50 : (op &&& 15 == 0) = true
                                                                · first | rw [if_pos h50, if_pos h50] | rw [if_pos h50]
                                                                  exact ⟨by decide, fun _ _ _ => rfl⟩
                                                                · first | rw [if_neg h50, if_neg h50] | rw [if_neg h50]
                                                                  by_cases h51 : (op &&& 15 == 1) = true
                                                                  · first | rw [if_pos h51, if_pos h51] | rw [if_pos h51]
                                                                    exact ⟨by decide, fun _ _ _ => rfl⟩
                                                                  · first | rw [if_neg h51, if_neg h51] | rw [if_neg h51]
                                                                    by_cases h52 : (op &&& 15 == 2) = true
                                                                    · first | rw [if_pos h52, if_pos h52] | rw [if_pos h52]
                                                                      exact ⟨by decide, fun _ _ _ => rfl⟩
                                                                    · first | rw [if_neg h52, if_neg h52] | rw [if_neg h52]
                                                                      by_cases h53 : (op &&& 15 == 3) = true
                                                                      · first | rw [if_pos h53, if_pos h53] | rw [if_pos h53]
                                                                        exact ⟨by decide, fun _ _ _ => rfl⟩
                                                                      · first | rw [if_neg h53, if_neg h53] | rw [if_neg h53]
                                                                        by_cases h54 : (op &&& 15 == 4) = true
                                                                        · first | rw [if_pos h54, if_pos h54] | rw [if_pos h54]
                                                                          exact ⟨by decide, fun _ _ h => absurd rfl h⟩
                                                                        · first | rw [if_neg h54, if_neg h54] | rw [if_neg h54]
                                                                          by_cases h55 : (op &&& 15 == 5) = true
                                                                          · first | rw [if_pos h55, if_pos h55] | rw [if_pos h55]
                                                                            exact ⟨by decide, fun _ _ _ => rfl⟩
                                                                          · first | rw [if_neg h55, if_neg h55] | rw [if_neg h55]
                                                                            by_cases h56 : (op &&& 15 == 6) = true
                                                                            · first | rw [if_pos h56, if_pos h56] | rw [if_pos h56]
                                                                              exact ⟨by decide, fun _ _ _ => rfl⟩
                                                                            · first | rw [if_neg h56, if_neg h56] | rw [if_neg h56]
                                                                              by_cases h57 : (op &&& 15 == 7) = true
                                                                              · first | rw [if_pos h57, if_pos h57] | rw [if_pos h57]
                                                                                exact ⟨by decide, fun _ _ _ => rfl⟩
                                                                              · first | rw [if_neg h57, if_neg h57] | rw [if_neg h57]
                                                                                by_cases h58 : (op &&& 15 == 8) = true
                                                                                · first | rw [if_pos h58, if_pos h58] | rw [if_pos h58]
                                                                                  by_cases h59 : (op >>> 4 &&& 15 == 0) = true
                                                                                  · first | rw [if_pos h59, if_pos h59] | rw [if_pos h59]
                                                                                    exact ⟨by decide, fun _ _ _ => rfl⟩
                                                                                  · first | rw [if_neg h59, if_neg h59] | rw [if_neg h59]
                                                                                    by_cases h60 : (op >>> 4 &&& 15 == 1) = true
                                                                                    · first | rw [if_pos h60, if_pos h60] | rw [if_pos h60]
                                                                                      exact ⟨by decide, fun _ _ _ => rfl⟩
                                                                                    · first | rw [if_neg h60, if_neg h60] | rw [if_neg h60]
                                                                                      by_cases h61 : (op >>> 4 &&& 15 == 2) = true
                                                                                      · first | rw [if_pos h61, if_pos h61] | rw [if_pos h61]
                                                                                        exact ⟨by decide, fun _ _ _ => rfl⟩
                                                                                      · first | rw [if_neg h61, if_neg h61] | rw [if_neg h61]
                                                                                        by_cases h62 : (op >>> 4 &&& 15 == 3) = true
                                                                                        · first | rw [if_pos h62, if_pos h62] | rw [if_pos h62]
                                                                                          exact ⟨by decide, fun _ _ _ => rfl⟩
                                                                                        · first | rw [if_neg h62, if_neg h62] | rw [if_neg h62]
                                                                                          by_cases h63 : (op >>> 4 &&& 15 == 4) = true
                                                                                          · first | rw [if_pos h63, if_pos h63] | rw [if_pos h63]
                                                                                            exact ⟨by decide, fun _ _ _ => rfl⟩
                                                                                          · first | rw [if_neg h63, if_neg h63] | rw [if_neg h63]
                                                                                            by_cases h64 : (op >>> 4 &&& 15 == 5) = true
                                                                                            · first | rw [if_pos h64, if_pos h64] | rw [if_pos h64]
                                                                                              exact ⟨by decide, fun _ _ _ => rfl⟩
                                                                                            · first | rw [if_neg h64, if_neg h64] | rw [if_neg h64]
                                                                                              by_cases h65 : (op >>> 4 &&& 15 == 6) = true
                                                                                              · first | rw [if_pos h65, if_pos h65] | rw [if_pos h65]
                                                                                                exact ⟨by decide, fun _ _ _ => rfl⟩
                                                                                              · first | rw [if_neg h65, if_neg h65] | rw [if_neg h65]
                                                                                                by_cases h66 : (op >>> 4 &&& 15 == 7) = true
                                                                                                · first | rw [if_pos h66, if_pos h66] | rw [if_pos h66]
                                                                                                  exact ⟨by decide, fun _ _ _ => rfl⟩
                                                                                                · first | rw [if_neg h66, if_neg h66] | rw [if_neg h66]
                                                                                                  by_cases h67 : (op >>> 4 &&& 15 == 8) = true
                                                                                                  · first | rw [if_pos h67, if_pos h67] | rw [if_pos h67]
                                                                                                    exact ⟨by decide, fun _ _ _ => rfl⟩
                                                                                                  · first | rw [if_neg h67, if_neg h67] | rw [if_neg h67]
                                                                                                    by_cases h68 : (op >>> 4 &&& 15 == 9) = true
                                                                                                    · first | rw [if_pos h68, if_pos h68] | rw [if_pos h68]
                                                                                                      exact ⟨by decide, fun _ _ _ => rfl⟩
                                                                                                    · first | rw [if_neg h68, if_neg h68] | rw [if_neg h68]
                                                                                                      by_cases h69 : (op >>> 4 &&& 15 == 10) = true
                                                                                                      · first | rw [if_pos h69, if_pos h69] | rw [if_pos h69]
                                                                                                        exact ⟨by decide, fun _ _ _ => rfl⟩
                                                                                                      · first | rw [if_neg h69, if_neg h69] | rw [if_neg h69]
                                                                                                        by_cases h70 : (op >>> 4 &&& 15 == 11) = true
                                                                                                        · first | rw [if_pos h70, if_pos h70] | rw [if_pos h70]
                                                                                                          exact ⟨by decide, fun _ _ _ => rfl⟩
                                                                                                        · first | rw [if_neg h70, if_neg h70] | rw [if_neg h70]
                                                                                                          by_cases h71 : (op >>> 4 &&& 15 == 12) = true
                                                                                                          · first | rw [if_pos h71, if_pos h71] | rw [if_pos h71]
                                                                                                            exact ⟨by decide, fun _ _ _ => rfl⟩
                                                                                                          · first | rw [if_neg h71, if_neg h71] | rw [if_neg h71]
                                                                                                            by_cases h72 : (op >>> 4 &&& 15 == 13) = true
                                                                                                            · first | rw [if_pos h72, if_pos h72] | rw [if_pos h72]
                                                                                                              exact ⟨by decide, fun _ _ _ => rfl⟩
                                                                                                            · first | rw [if_neg h72, if_neg h72] | rw [if_neg h72]
                                                                                                              by_cases h73 : (op >>> 4 &&& 15 == 14) = true
                                                                                                              · first | rw [if_pos h73, if_pos h73] | rw [if_pos h73]
                                                                                                                exact ⟨by decide, fun _ _ _ => rfl⟩
                                                                                                              · first | rw [if_neg h73, if_neg h73] | rw [if_neg h73]
                                                                                                                exact ⟨by decide, fun _ _ _ => rfl⟩
                                                                                · first | rw [if_neg h58, if_neg h58] | rw [if_neg h58]
                                                                                  by_cases h74 : (op &&& 15 == 9) = true
                                                                                  · first | rw [if_pos h74, if_pos h74] | rw [if_pos h74]
                                                                                    by_cases h75 : (op >>> 4 &&& 15 == 0) = true
                                                                                    · first | rw [if_pos h75, if_pos h75] | rw [if_pos h75]
                                                                                      exact ⟨by decide, fun _ _ _ => rfl⟩
                                                                                    · first | rw [if_neg h75, if_neg h75] | rw [if_neg h75]
                                                                                      exact ⟨by decide, fun _ _ h => absurd rfl h⟩
                                                                                  · first | rw [if_neg h74, if_neg h74] | rw [if_neg h74]
                                                                                    by_cases h76 : (op &&& 15 == 10) = true
                                                                                    · first | rw [if_pos h76, if_pos h76] | rw [if_pos h76]
                                                                                      exact ⟨by decide, fun _ _ _ => rfl⟩
                                                                                    · first | rw [if_neg h76, if_neg h76] | rw [if_neg h76]
                                                                                      by_cases h77 : (op &&& 15 == 11) = true
                                                                                      · first | rw [if_pos h77, if_pos h77] | rw [if_pos h77]
                                                                                        exact ⟨by decide, fun _ _ _ => rfl⟩
                                                                                      · first | rw [if_neg h77, if_neg h77] | rw [if_neg h77]
                                                                                        by_cases h78 : op &&& 15 ≤ 13
                                                                                        · first | rw [if_pos h78, if_pos h78] | rw [if_pos h78]
                                                                                          exact ⟨by decide, fun _ _ _ => rfl⟩
                                                                                        · first | rw [if_neg h78, if_neg h78] | rw [if_neg h78]
                                                                                          exact ⟨by decide, fun _ _ _ => rfl⟩
                                                              · first | rw [if_neg h49, if_neg h49] | rw [if_neg h49]
                                                                by_cases h79 : op ≤ 38399
                                                                · first | rw [if_pos h79, if_pos h79] | rw [if_pos h79]
                                                                  by_cases h80 : (op &&& 15 == 0) = true
                                                                  · first | rw [if_pos h80, if_pos h80] | rw [if_pos h80]
                                                                    exact ⟨by decide, fun _ _ _ => rfl⟩
                                                                  · first | rw [if_neg h80, if_neg h80] | rw [if_neg h80]
                                                                    by_cases h81 : (op &&& 15 == 1) = true
                                                                    · first | rw [if_pos h81, if_pos h81] | rw [if_pos h81]
                                                                      exact ⟨by decide, fun _ _ _ => rfl⟩
                                                                    · first | rw [if_neg h81, if_neg h81] | rw [if_neg h81]
                                                                      by_cases h82 : (op &&& 15 == 2) = true
                                                                      · first | rw [if_pos h82, if_pos h82] | rw [if_pos h82]
                                                                        exact ⟨by decide, fun _ _ _ => rfl⟩
                                                                      · first | rw [if_neg h82, if_neg h82] | rw [if_neg h82]
                                                                        by_cases h83 : (op &&& 15 == 3) = true
                                                                        · first | rw [if_pos h83, if_pos h83] | rw [if_pos h83]
                                                                          exact ⟨by decide, fun _ _ _ => rfl⟩
                                                                        · first | rw [if_neg h83, if_neg h83] | rw [if_neg h83]
                                                                          by_cases h84 : (op &&& 15 == 4) = true
                                                                          · first | rw [if_pos h84, if_pos h84] | rw [if_pos h84]
                                                                            exact ⟨by decide, fun _ _ h => absurd rfl h⟩
                                                                          · first | rw [if_neg h84, if_neg h84] | rw [if_neg h84]
                                                                            by_cases h85 : (op &&& 15 == 5) = true
                                                                            · first | rw [if_pos h85, if_pos h85] | rw [if_pos h85]
                                                                              exact ⟨by decide, fun _ _ _ => rfl⟩
                                                                            · first | rw [if_neg h85, if_neg h85] | rw [if_neg h85]
                                                                              by_cases h86 : (op &&& 15 == 6) = true
                                                                              · first | rw [if_pos h86, if_pos h86] | rw [if_pos h86]
                                                                                exact ⟨by decide, fun _ _ _ => rfl⟩
                                                                              · first | rw [if_neg h86, if_neg h86] | rw [if_neg h86]
                                                                                by_cases h87 : (op &&& 15 == 7) = true
                                                                                · first | rw [if_pos h87, if_pos h87] | rw [if_pos h87]
                                                                                  exact ⟨by decide, fun _ _ _ => rfl⟩
                                                                                · first | rw [if_neg h87, if_neg h87] | rw [if_neg h87]
                                                                                  by_cases h88 : (op &&& 15 == 8) = true
                                                                                  · first | rw [if_pos h88, if_pos h88] | rw [if_pos h88]
                                                                                    by_cases h89 : (op >>> 4 &&& 15 == 0) = true
                                                                                    · first | rw [if_pos h89, if_pos h89] | rw [if_pos h89]
                                                                                      exact ⟨by decide, fun _ _ _ => rfl⟩
                                                                                    · first | rw [if_neg h89, if_neg h89] | rw [if_neg h89]
                                                                                      by_cases h90 : (op >>> 4 &&& 15 == 1) = true
                                                                                      · first | rw [if_pos h90, if_pos h90] | rw [if_pos h90]
                                                                                        exact ⟨by decide, fun _ _ _ => rfl⟩
                                                                                      · first | rw [if_neg h90, if_neg h90] | rw [if_neg h90]
                                                                                        by_cases h91 : (op >>> 4 &&& 15 == 8) = true
                                                                                        · first | rw [if_pos h91, if_pos h91] | rw [if_pos h91]
                                                                                          exact ⟨by decide, fun _ _ _ => rfl⟩
                                                                                        · first | rw [if_neg h91, if_neg h91] | rw [if_neg h91]
                                                                                          by_cases h92 : (op >>> 4 &&& 15 == 9) = true
                                                                                          · first | rw [if_pos h92, if_pos h92] | rw [if_pos h92]
                                                                                            exact ⟨by decide, fun _ h _ => absurd rfl h⟩
                                                                                          · first | rw [if_neg h92, if_neg h92] | rw [if_neg h92]
                                                                                            by_cases h93 : (op >>> 4 &&& 15 == 10) = true
                                                                                            · first | rw [if_pos h93, if_pos h93] | rw [if_pos h93]
                                                                                              exact ⟨by decide, fun _ _ _ => rfl⟩
                                                                                            · first | rw [if_neg h93, if_neg h93] | rw [if_neg h93]
                                                                                              by_cases h94 : (op >>> 4 &&& 15 == 12) = true
                                                                                              · first | rw [if_pos h94, if_pos h94] | rw [if_pos h94]
                                                                                                exact ⟨by decide, fun _ _ _ => rfl⟩
                                                                                              · first | rw [if_neg h94, if_neg h94] | rw [if_neg h94]
                                                                                                by_cases h95 : 14 ≤ op >>> 4 &&& 15 ∧ op >>> 4 &&& 15 ≤ 15
                                                                                                · first | rw [if_pos h95, if_pos h95] | rw [if_pos h95]
                                                                                                  exact ⟨by decide, fun _ _ _ => rfl⟩
                                                                                                · first | rw [if_neg h95, if_neg h95] | rw [if_neg h95]
                                                                                                  exact ⟨by decide, fun _ _ h => absurd rfl h⟩
                                                                                  · first | rw [if_neg h88, if_neg h88] | rw [if_neg h88]
                                                                                    by_cases h96 : (op &&& 15 == 9) = true
                                                                                    · first | rw [if_pos h96, if_pos h96] | rw [if_pos h96]
                                                                                      by_cases h97 : (op >>> 4 &&& 15 == 0) = true
                                                                                      · first | rw [if_pos h97, if_pos h97] | rw [if_pos h97]
                                                                                        exact ⟨by decide, fun _ _ _ => rfl⟩
                                                                                      · first | rw [if_neg h97, if_neg h97] | rw [if_neg h97]
                                                                                        exact ⟨by decide, fun _ _ h => absurd rfl h⟩
                                                                                    · first | rw [if_neg h96, if_neg h96] | rw [if_neg h96]
                                                                                      by_cases h98 : (op &&& 15 == 10) = true
                                                                                      · first | rw [if_pos h98, if_pos h98] | rw [if_pos h98]
                                                                                        exact ⟨by decide, fun _ _ _ => rfl⟩
                                                                                      · first | rw [if_neg h98, if_neg h98] | rw [if_neg h98]
                                                                                        by_cases h99 : (op &&& 15 == 11) = true
                                                                                        · first | rw [if_pos h99, if_pos h99] | rw [if_pos h99]
                                                                                          exact ⟨by decide, fun _ _ h => absurd rfl h⟩
                                                                                        · first | rw [if_neg h99, if_neg h99] | rw [if_neg h99]
                                                                                          by_cases h100 : op &&& 15 ≤ 13
                                                                                          · first | rw [if_pos h100, if_pos h100] | rw [if_pos h100]
                                                                                            exact ⟨by decide, fun _ _ _ => rfl⟩
                                                                                          · first | rw [if_neg h100, if_neg h100] | rw [if_neg h100]
                                                                                            exact ⟨by decide, fun _ _ _ => rfl⟩
                                                                · first | rw [if_neg h79, if_neg h79] | rw [if_neg h79]
                                                                  by_cases h101 : op ≤ 38655
                                                                  · first | rw [if_pos h101, if_pos h101] | rw [if_pos h101]
                                                                    exact ⟨by decide, fun _ _ _ => rfl⟩
                                                                  · first | rw [if_neg h101, if_neg h101] | rw [if_neg h101]
                                                                    by_cases h102 : op ≤ 38911
                                                                    · first | rw [if_pos h102, if_pos h102] | rw [if_pos h102]
                                                                      exact ⟨by decide, fun _ _ _ => rfl⟩
                                                                    · first | rw [if_neg h102, if_neg h102] | rw [if_neg h102]
                                                                      by_cases h103 : op ≤ 39167
                                                                      · first | rw [if_pos h103, if_pos h103] | rw [if_pos h103]
                                                                        exact ⟨by decide, fun _ _ _ => rfl⟩
                                                                      · first | rw [if_neg h103, if_neg h103] | rw [if_neg h103]
                                                                        by_cases h104 : op ≤ 39423
                                                                        · first | rw [if_pos h104, if_pos h104] | rw [if_pos h104]
                                                                          exact ⟨by decide, fun _ _ _ => rfl⟩
                                                                        · first | rw [if_neg h104, if_neg h104] | rw [if_neg h104]
                                                                          by_cases h105 : op ≤ 39679
                                                                          · first | rw [if_pos h105, if_pos h105] | rw [if_pos h105]
                                                                            exact ⟨by decide, fun _ _ _ => rfl⟩
                                                                          · first | rw [if_neg h105, if_neg h105] | rw [if_neg h105]
                                                                            by_cases h106 : op ≤ 39935
                                                                            · first | rw [if_pos h106, if_pos h106] | rw [if_pos h106]
                                                                              exact ⟨by decide, fun _ _ _ => rfl⟩
                                                                            · first | rw [if_neg h106, if_neg h106] | rw [if_neg h106]
                                                                              by_cases h107 : op ≤ 40959
                                                                              · first | rw [if_pos h107, if_pos h107] | rw [if_pos h107]
                                                                                exact ⟨by decide, fun _ _ _ => rfl⟩
                                                                              · first | rw [if_neg h107, if_neg h107] | rw [if_neg h107]
                                                                                by_cases h108 : op ≤ 41471
                                                                                · first | rw [if_pos h108, if_pos h108] | rw [if_pos h108]
                                                                                  exact ⟨by decide, fun _ _ _ => rfl⟩
                                                                                · first | rw [if_neg h108, if_neg h108] | rw [if_neg h108]
                                                                                  by_cases h109 : op ≤ 41983
                                                                                  · first | rw [if_pos h109, if_pos h109] | rw [if_pos h109]
                                                                                    exact ⟨by decide, fun _ _ _ => rfl⟩
                                                                                  · first | rw [if_neg h109, if_neg h109] | rw [if_neg h109]
                                                                                    by_cases h110 : op ≤ 42495
                                                                                    · first | rw [if_pos h110, if_pos h110] | rw [if_pos h110]
                                                                                      exact ⟨by decide, fun _ _ _ => rfl⟩
                                                                                    · first | rw [if_neg h110, if_neg h110] | rw [if_neg h110]
                                                                                      by_cases h111 : op ≤ 43007
                                                                                      · first | rw [if_pos h111, if_pos h111] | rw [if_pos h111]
                                                                                        exact ⟨by decide, fun _ _ _ => rfl⟩
                                                                                      · first | rw [if_neg h111, if_neg h111] | rw [if_neg h111]
                                                                                        by_cases h112 : op ≤ 43519
                                                                                        · first | rw [if_pos h112, if_pos h112] | rw [if_pos h112]
                                                                                          exact ⟨by decide, fun _ _ _ => rfl⟩
                                                                                        · first | rw [if_neg h112, if_neg h112] | rw [if_neg h112]
                                                                                          by_cases h113 : op ≤ 44031
                                                                                          · first | rw [if_pos h113, if_pos h113] | rw [if_pos h113]
                                                                                            exact ⟨by decide, fun _ _ _ => rfl⟩
                                                                                          · first | rw [if_neg h113, if_neg h113] | rw [if_neg h113]
                                                                                            by_cases h114 : op ≤ 44543
                                                                                            · first | rw [if_pos h114, if_pos h114] | rw [if_pos h114]
                                                                                              exact ⟨by decide, fun _ _ _ => rfl⟩
                                                                                            · first | rw [if_neg h114, if_neg h114] | rw [if_neg h114]
                                                                                              by_cases h115 : op ≤ 45055
                                                                                              · first | rw [if_pos h115, if_pos h115] | rw [if_pos h115]
                                                                                                exact ⟨by decide, fun _ _ _ => rfl⟩
                                                                                              · first | rw [if_neg h115, if_neg h115] | rw [if_neg h115]
                                                                                                by_cases h116 : op ≤ 47103
                                                                                                · first | rw [if_pos h116, if_pos h116] | rw [if_pos h116]
                                                                                                  exact ⟨by decide, fun _ _ _ => rfl⟩
                                                                                                · first | rw [if_neg h116, if_neg h116] | rw [if_neg h116]
                                                                                                  by_cases h117 : op ≤ 49151
                                                                                                  · first | rw [if_pos h117, if_pos h117] | rw [if_pos h117]
                                                                                                    exact ⟨by decide, fun _ _ _ => rfl⟩
                                                                                                  · first | rw [if_neg h117, if_neg h117] | rw [if_neg h117]
                                                                                                    by_cases h118 : op ≤ 53247
                                                                                                    · first | rw [if_pos h118, if_pos h118] | rw [if_pos h118]
                                                                                                      exact ⟨by decide, fun _ _ _ => rfl⟩
                                                                                                    · first | rw [if_neg h118, if_neg h118] | rw [if_neg h118]
                                                                                                      by_cases h119 : op ≤ 57343
                                                                                                      · first | rw [if_pos h119, if_pos h119] | rw [if_pos h119]
                                                                                                        exact ⟨by decide, fun _ _ _ => rfl⟩
                                                                                                      · first | rw [if_neg h119, if_neg h119] | rw [if_neg h119]
                                                                                                        by_cases h120 : op ≤ 61439
                                                                                                        · first | rw [if_pos h120, if_pos h120] | rw [if_pos h120]
                                                                                                          exact ⟨by decide, fun _ _ _ => rfl⟩
                                                                                                        · first | rw [if_neg h120, if_neg h120] | rw [if_neg h120]
                                                                                                          by_cases h121 : op ≤ 62463
                                                                                                          · first | rw [if_pos h121, if_pos h121] | rw [if_pos h121]
                                                                                                            by_cases h122 : (op &&& 15 == 0) = true
                                                                                                            · first | rw [if_pos h122, if_pos h122] | rw [if_pos h122]
                                                                                                              exact ⟨by decide, fun _ _ _ => rfl⟩
                                                                                                            · first | rw [if_neg h122, if_neg h122] | rw [if_neg h122]
                                                                                                              by_cases h123 : (op &&& 15 == 1) = true
                                                                                                              · first | rw [if_pos h123, if_pos h123] | rw [if_pos h123]
                                                                                                                exact ⟨by decide, fun _ _ _ => rfl⟩
                                                                                                              · first | rw [if_neg h123, if_neg h123] | rw [if_neg h123]
                                                                                                                by_cases h124 : (op &&& 15 == 2) = true
                                                                                                                · first | rw [if_pos h124, if_pos h124] | rw [if_pos h124]
                                                                                                                  exact ⟨by decide, fun _ _ _ => rfl⟩
                                                                                                                · first | rw [if_neg h124, if_neg h124] | rw [if_neg h124]
                                                                                                                  by_cases h125 : (op &&& 15 == 3) = true
                                                                                                                  · first | rw [if_pos h125, if_pos h125] | rw [if_pos h125]
                                                                                                                    exact ⟨by decide, fun _ _ _ => rfl⟩
                                                                                                                  · first | rw [if_neg h125, if_neg h125] | rw [if_neg h125]
                                                                                                                    by_cases h126 : (op &&& 15 == 4) = true
                                                                                                                    · first | rw [if_pos h126, if_pos h126] | rw [if_pos h126]
                                                                                                                      exact ⟨by decide, fun _ _ _ => rfl⟩
                                                                                                                    · first | rw [if_neg h126, if_neg h126] | rw [if_neg h126]
                                                                                                                      by_cases h127 : (op &&& 15 == 5) = true
                                                                                                                      · first | rw [if_pos h127, if_pos h127] | rw [if_pos h127]
                                                                                                                        exact ⟨by decide, fun _ _ _ => rfl⟩
                                                                                                                      · first | rw [if_neg h127, if_neg h127] | rw [if_neg h127]
                                                                                                                        by_cases h128 : (op &&& 15 == 6) = true
                                                                                                                        · first | rw [if_pos h128, if_pos h128] | rw [if_pos h128]
                                                                                                                          exact ⟨by decide, fun _ _ _ => rfl⟩
                                                                                                                        · first | rw [if_neg h128, if_neg h128] | rw [if_neg h128]
                                                                                                                          by_cases h129 : (op &&& 15 == 7) = true
                                                                                                                          · first | rw [if_pos h129, if_pos h129] | rw [if_pos h129]
                                                                                                                            exact ⟨by decide, fun _ _ _ => rfl⟩
                                                                                                                          · first | rw [if_neg h129, if_neg h129] | rw [if_neg h129]
                                                                                                                            by_cases h130 : (op &&& 15 == 8) = true
                                                                                                                            · first | rw [if_pos h130, if_pos h130] | rw [if_pos h130]
                                                                                                                              exact ⟨by decide, fun _ _ _ => rfl⟩
                                                                                                                            · first | rw [if_neg h130, if_neg h130] | rw [if_neg h130]
                                                                                                                              by_cases h131 : (op &&& 15 == 9) = true
                                                                                                                              · first | rw [if_pos h131, if_pos h131] | rw [if_pos h131]
                                                                                                                                exact ⟨by decide, fun _ _ _ => rfl⟩
                                                                                                                              · first | rw [if_neg h131, if_neg h131] | rw [if_neg h131]
                                                                                                                                by_cases h132 : (op &&& 15 == 10) = true
                                                                                                                                · first | rw [if_pos h132, if_pos h132] | rw [if_pos h132]
                                                                                                                                  exact ⟨by decide, fun _ _ _ => rfl⟩
                                                                                                                                · first | rw [if_neg h132, if_neg h132] | rw [if_neg h132]
                                                                                                                                  by_cases h133 : (op &&& 15 == 11) = true
                                                                                                                                  · first | rw [if_pos h133, if_pos h133] | rw [if_pos h133]
                                                                                                                                    exact ⟨by decide, fun _ _ _ => rfl⟩
                                                                                                                                  · first | rw [if_neg h133, if_neg h133] | rw [if_neg h133]
                                                                                                                                    by_cases h134 : (op &&& 15 == 12) = true
                                                                                                                                    · first | rw [if_pos h134, if_pos h134] | rw [if_pos h134]
                                                                                                                                      exact ⟨by decide, fun _ _ _ => rfl⟩
                                                                                                                                    · first | rw [if_neg h134, if_neg h134] | rw [if_neg h134]
                                                                                                                                      by_cases h135 : (op &&& 15 == 13) = true
                                                                                                                                      · first | rw [if_pos h135, if_pos h135] | rw [if_pos h135]
                                                                                                                                        exact ⟨by decide, fun _ _ _ => rfl⟩
                                                                                                                                      · first | rw [if_neg h135, if_neg h135] | rw [if_neg h135]
                                                                                                                                        by_cases h136 : (op &&& 15 == 14) = true
                                                                                                                                        · first | rw [if_pos h136, if_pos h136] | rw [if_pos h136]
                                                                                                                                          exact ⟨by decide, fun _ _ _ => rfl⟩
                                                                                                                                        · first | rw [if_neg h136, if_neg h136] | rw [if_neg h136]
                                                                                                                                          exact ⟨by decide, fun _ _ _ => rfl⟩
                                                                                                          · first | rw [if_neg h121, if_neg h121] | rw [if_neg h121]
                                                                                                            by_cases h137 : op ≤ 63487
                                                                                                            · first | rw [if_pos h137, if_pos h137] | rw [if_pos h137]
                                                                                                              by_cases h138 : (op &&& 15 == 0) = true
                                                                                                              · first | rw [if_pos h138, if_pos h138] | rw [if_pos h138]
                                                                                                                exact ⟨by decide, fun _ _ _ => rfl⟩
                                                                                                              · first | rw [if_neg h138, if_neg h138] | rw [if_neg h138]
                                                                                                                by_cases h139 : (op &&& 15 == 1) = true
                                                                                                                · first | rw [if_pos h139, if_pos h139] | rw [if_pos h139]
                                                                                                                  exact ⟨by decide, fun _ _ _ => rfl⟩
                                                                                                                · first | rw [if_neg h139, if_neg h139] | rw [if_neg h139]
                                                                                                                  by_cases h140 : (op &&& 15 == 2) = true
                                                                                                                  · first | rw [if_pos h140, if_pos h140] | rw [if_pos h140]
                                                                                                                    exact ⟨by decide, fun _ _ _ => rfl⟩
                                                                                                                  · first | rw [if_neg h140, if_neg h140] | rw [if_neg h140]
                                                                                                                    by_cases h141 : (op &&& 15 == 3) = true
                                                                                                                    · first | rw [if_pos h141, if_pos h141] | rw [if_pos h141]
                                                                                                                      exact ⟨by decide, fun _ _ _ => rfl⟩
                                                                                                                    · first | rw [if_neg h141, if_neg h141] | rw [if_neg h141]
                                                                                                                      by_cases h142 : (op &&& 15 == 4) = true
                                                                                                                      · first | rw [if_pos h142, if_pos h142] | rw [if_pos h142]
                                                                                                                        exact ⟨by decide, fun _ _ _ => rfl⟩
                                                                                                                      · first | rw [if_neg h142, if_neg h142] | rw [if_neg h142]
                                                                                                                        by_cases h143 : (op &&& 15 == 5) = true
                                                                                                                        · first | rw [if_pos h143, if_pos h143] | rw [if_pos h143]
                                                                                                                          exact ⟨by decide, fun _ _ _ => rfl⟩
                                                                                                                        · first | rw [if_neg h143, if_neg h143] | rw [if_neg h143]
                                                                                                                          by_cases h144 : (op &&& 15 == 6) = true
                                                                                                                          · first | rw [if_pos h144, if_pos h144] | rw [if_pos h144]
                                                                                                                            exact ⟨by decide, fun _ _ _ => rfl⟩
                                                                                                                          · first | rw [if_neg h144, if_neg h144] | rw [if_neg h144]
                                                                                                                            by_cases h145 : (op &&& 15 == 7) = true
                                                                                                                            · first | rw [if_pos h145, if_pos h145] | rw [if_pos h145]
                                                                                                                              exact ⟨by decide, fun _ _ _ => rfl⟩
                                                                                                                            · first | rw [if_neg h145, if_neg h145] | rw [if_neg h145]
                                                                                                                              by_cases h146 : (op &&& 15 == 8) = true
                                                                                                                              · first | rw [if_pos h146, if_pos h146] | rw [if_pos h146]
                                                                                                                                exact ⟨by decide, fun _ _ _ => rfl⟩
                                                                                                                              · first | rw [if_neg h146, if_neg h146] | rw [if_neg h146]
                                                                                                                                by_cases h147 : (op &&& 15 == 9) = true
                                                                                                                                · first | rw [if_pos h147, if_pos h147] | rw [if_pos h147]
                                                                                                                                  exact ⟨by decide, fun _ _ _ => rfl⟩
                                                                                                                                · first | rw [if_neg h147, if_neg h147] | rw [if_neg h147]
                                                                                                                                  by_cases h148 : (op &&& 15 == 10) = true
                                                                                                                                  · first | rw [if_pos h148, if_pos h148] | rw [if_pos h148]
                                                                                                                                    exact ⟨by decide, fun _ _ _ => rfl⟩
                                                                                                                                  · first | rw [if_neg h148, if_neg h148] | rw [if_neg h148]
                                                                                                                                    by_cases h149 : (op &&& 15 == 11) = true
                                                                                                                                    · first | rw [if_pos h149, if_pos h149] | rw [if_pos h149]
                                                                                                                                      exact ⟨by decide, fun _ _ _ => rfl⟩
                                                                                                                                    · first | rw [if_neg h149, if_neg h149] | rw [if_neg h149]
                                                                                                                                      by_cases h150 : (op &&& 15 == 12) = true
                                                                                                                                      · first | rw [if_pos h150, if_pos h150] | rw [if_pos h150]
                                                                                                                                        exact ⟨by decide, fun _ _ _ => rfl⟩
                                                                                                                                      · first | rw [if_neg h150, if_neg h150] | rw [if_neg h150]
                                                                                                                                        by_cases h151 : (op &&& 15 == 13) = true
                                                                                                                                        · first | rw [if_pos h151, if_pos h151] | rw [if_pos h151]
                                                                                                                                          exact ⟨by decide, fun _ _ _ => rfl⟩
                                                                                                                                        · first | rw [if_neg h151, if_neg h151] | rw [if_neg h151]
                                                                                                                                          by_cases h152 : (op &&& 15 == 14) = true
                                                                                                                                          · first | rw [if_pos h152, if_pos h152] | rw [if_pos h152]
                                                                                                                                            exact ⟨by decide, fun _ _ _ => rfl⟩
                                                                                                                                          · first | rw [if_neg h152, if_neg h152] | rw [if_neg h152]
                                                                                                                                            exact ⟨by decide, fun _ _ _ => rfl⟩
                                                                                                            · first | rw [if_neg h137, if_neg h137] | rw [if_neg h137]
                                                                                                              by_cases h153 : op ≤ 63999
                                                                                                              · first | rw [if_pos h153, if_pos h153] | rw [if_pos h153]
                                                                                                                exact ⟨by decide, fun _ _ _ => rfl⟩
                                                                                                              · first | rw [if_neg h153, if_neg h153] | rw [if_neg h153]
                                                                                                                by_cases h154 : op ≤ 64511
                                                                                                                · first | rw [if_pos h154, if_pos h154] | rw [if_pos h154]
                                                                                                                  exact ⟨by decide, fun _ _ _ => rfl⟩
                                                                                                                · first | rw [if_neg h154, if_neg h154] | rw [if_neg h154]
                                                                                                                  by_cases h155 : op ≤ 65023
                                                                                                                  · first | rw [if_pos h155, if_pos h155] | rw [if_pos h155]
                                                                                                                    exact ⟨by decide, fun _ _ _ => rfl⟩
                                                                                                                  · first | rw [if_neg h155, if_neg h155] | rw [if_neg h155]
                                                                                                                    exact ⟨by decide, fun _ _ _ => rfl⟩

/-- Closed instance of the amended claim C2 at the concrete opcode `0x0C00`
(an `add` word): the disassembler's mnemonic equals the handler name there. -/
theorem C2_amended_witness :
    disasm_instruction 0x0C00 = stepHandlerName 0x0C00 :=
  (C2_amended_decode_agreement 0x0C00).2 (by decide) (by decide) (by decide)

end Atmega
